import Mathlib

/-!
Verification development for the chat-driven operations assistant
(msp_automation_chatbot).  The Python sources are shallowly embedded over
`List Char`: pure string manipulation is translated function by function,
system time, the Kubernetes API, the Prometheus API, the OpenAI API and the
subprocess runner are passed in as explicit parameters, and fallible code
returns `Except`/`Option`.
-/

set_option maxRecDepth 10000

/-- Convert a string literal to the character-list representation used
throughout this development. -/
def toCL (s : String) : List Char := s.data

/-- Single-quote character (written by code point to keep literals plain). -/
def aposC : Char := Char.ofNat 39

/-- Double-quote character. -/
def dquoteC : Char := Char.ofNat 34

/-- Left curly-brace character. -/
def lbraceC : Char := Char.ofNat 123

/-- Right curly-brace character. -/
def rbraceC : Char := Char.ofNat 125

/-- Python `str` whitespace for `strip`/`split` (ASCII model):
space, tab, newline, carriage return, vertical tab, form feed. -/
def isPySpace (c : Char) : Bool :=
  c == ' ' || c == '\t' || c == '\n' || c == '\r' || c == '\x0b' || c == '\x0c'

/-- Python `\w` (ASCII model): letters, digits and underscore. -/
def isWordChar (c : Char) : Bool := c.isAlphanum || c == '_'

/-- Lowercase a character list, as Python `str.lower` (ASCII model). -/
def toLowerL (s : List Char) : List Char := s.map Char.toLower

/-- Boolean list-prefix test, as Python `str.startswith`. -/
def startsWithL : List Char → List Char → Bool
  | [], _ => true
  | _ :: _, [] => false
  | p :: ps, c :: cs => p == c && startsWithL ps cs

/-- Substring containment, as the Python `in` operator on strings. -/
def containsL (pat : List Char) : List Char → Bool
  | [] => startsWithL pat []
  | c :: cs => startsWithL pat (c :: cs) || containsL pat (c :: cs).tail

/-- Character membership in a character list. -/
def containsC (c : Char) (s : List Char) : Bool := s.any (fun x => x == c)

/-- Python `str.strip()` with no argument: drop leading whitespace. -/
def pyStripLeft (s : List Char) : List Char := s.dropWhile isPySpace

/-- Python `str.strip()` with no argument: drop whitespace at both ends. -/
def pyStrip (s : List Char) : List Char :=
  ((s.dropWhile isPySpace).reverse.dropWhile isPySpace).reverse

/-- Python `str.strip(chars)`: drop the given characters at both ends. -/
def pyStripChars (chars : List Char) (s : List Char) : List Char :=
  ((s.dropWhile (fun c => containsC c chars)).reverse.dropWhile
      (fun c => containsC c chars)).reverse

/-- Python `str.rstrip(c)` for a single character. -/
def pyRstripChar (ch : Char) (s : List Char) : List Char :=
  (s.reverse.dropWhile (fun c => c == ch)).reverse

/-- Python `str.split(sep)` for a one-character separator (keeps empty parts). -/
def splitOnCharL (sep : Char) : List Char → List (List Char)
  | [] => [[]]
  | c :: cs =>
    if c == sep then [] :: splitOnCharL sep cs
    else
      match splitOnCharL sep cs with
      | [] => [[c]]
      | g :: gs => (c :: g) :: gs

/-- Worker for `pySplitWs`, accumulating the current token reversed. -/
def pySplitWsGo : List Char → List Char → List (List Char)
  | [], acc => if acc.isEmpty then [] else [acc.reverse]
  | c :: cs, acc =>
    if isPySpace c then
      if acc.isEmpty then pySplitWsGo cs [] else acc.reverse :: pySplitWsGo cs []
    else pySplitWsGo cs (c :: acc)

/-- Python `str.split()` with no argument: whitespace-separated tokens,
empty tokens discarded. -/
def pySplitWs (s : List Char) : List (List Char) := pySplitWsGo s []

/-- Python `str.split(sep, 1)` for a one-character separator: the part before
the first occurrence, and the remainder when the separator occurs. -/
def splitFirstChar (sep : Char) : List Char → List Char × Option (List Char)
  | [] => ([], none)
  | c :: cs =>
    if c == sep then ([], some cs)
    else
      match splitFirstChar sep cs with
      | (pre, rest) => (c :: pre, rest)

/-- Fueled worker for `splitOnSubL`. -/
def splitOnSubFuel (pat : List Char) : Nat → List Char → List Char → List (List Char)
  | 0, s, acc => [acc.reverse ++ s]
  | _ + 1, [], acc => [acc.reverse]
  | f + 1, c :: cs, acc =>
    if startsWithL pat (c :: cs) then
      acc.reverse :: splitOnSubFuel pat f (List.drop pat.length (c :: cs)) []
    else splitOnSubFuel pat f cs (c :: acc)

/-- Python `str.split(sep)` for a nonempty multi-character separator. -/
def splitOnSubL (pat : List Char) (s : List Char) : List (List Char) :=
  splitOnSubFuel pat (s.length + 1) s []

/-- Decimal digit character for a value below ten. -/
def digitChar (d : Nat) : Char := Char.ofNat (48 + d)

/-- Fueled most-significant-first decimal rendering of a positive number. -/
def natToCharsFuel : Nat → Nat → List Char
  | 0, _ => []
  | f + 1, n => if n == 0 then [] else natToCharsFuel f (n / 10) ++ [digitChar (n % 10)]

/-- Decimal rendering of a natural number, as Python `str`/format. -/
def natToChars (n : Nat) : List Char :=
  if n == 0 then toCL "0" else natToCharsFuel (n + 1) n

/-- Decimal rendering of an integer, as Python `str`/format. -/
def intToChars (i : Int) : List Char :=
  if i < 0 then '-' :: natToChars i.natAbs else natToChars i.natAbs

/-- Zero-padded decimal rendering to a minimum width. -/
def natToCharsPad (width : Nat) (n : Nat) : List Char :=
  List.replicate (width - (natToChars n).length) '0' ++ natToChars n

/-!  A small backtracking regular-expression engine, sufficient for the fixed
signature patterns appearing in the sources.  `REmatch` returns every
(last-consumed-character, remainder) pair reachable by matching the pattern at
the head of the input; `research` is Python `re.search` as a Boolean. -/

/-- Regular expressions as used by the embedded signature patterns.
Repetition is restricted to character classes, which is all the sources use. -/
inductive RE where
  | eps : RE
  | lit : List Char → RE
  | cls : (Char → Bool) → RE
  | seq : RE → RE → RE
  | alt : RE → RE → RE
  | starCls : (Char → Bool) → RE
  | plusCls : (Char → Bool) → RE
  | opt : RE → RE
  | wordB : RE
  | eos : RE

/-- Match a literal, tracking the last consumed character. -/
def litMatch : List Char → Option Char → List Char → List (Option Char × List Char)
  | [], prev, cs => [(prev, cs)]
  | _ :: _, _, [] => []
  | l :: ls, _, c :: cs => if c == l then litMatch ls (some c) cs else []

/-- All ways a character-class star can consume a prefix of the input. -/
def starClsMatches (p : Char → Bool) : Option Char → List Char → List (Option Char × List Char)
  | prev, [] => [(prev, [])]
  | prev, c :: cs =>
    (prev, c :: cs) :: (if p c then starClsMatches p (some c) cs else [])

/-- The Python `\b` zero-width word-boundary test. -/
def wordBoundary (prev : Option Char) (cs : List Char) : Bool :=
  (match prev with | some c => isWordChar c | none => false)
    != (match cs with | c :: _ => isWordChar c | [] => false)

/-- All (last-character, remainder) pairs after matching `r` at the input head.
The end anchor follows Python `$` without MULTILINE: end of input, or just
before a final newline. -/
def REmatch : RE → Option Char → List Char → List (Option Char × List Char)
  | .eps, prev, cs => [(prev, cs)]
  | .lit l, prev, cs => litMatch l prev cs
  | .cls _, _, [] => []
  | .cls p, _, c :: cs => if p c then [(some c, cs)] else []
  | .seq a b, prev, cs => (REmatch a prev cs).flatMap (fun pc => REmatch b pc.1 pc.2)
  | .alt a b, prev, cs => REmatch a prev cs ++ REmatch b prev cs
  | .starCls p, prev, cs => starClsMatches p prev cs
  | .plusCls _, _, [] => []
  | .plusCls p, _, c :: cs => if p c then starClsMatches p (some c) cs else []
  | .opt a, prev, cs => REmatch a prev cs ++ [(prev, cs)]
  | .wordB, prev, cs => if wordBoundary prev cs then [(prev, cs)] else []
  | .eos, prev, cs => if cs.isEmpty || cs == toCL "\n" then [(prev, cs)] else []

/-- Scan for a match of `r` starting at any position, tracking the character
before the current position for word boundaries. -/
def searchFrom (r : RE) : Option Char → List Char → Bool
  | prev, [] => !(REmatch r prev []).isEmpty
  | prev, c :: cs => !(REmatch r prev (c :: cs)).isEmpty || searchFrom r (some c) cs

/-- Python `re.search(r, s)` as a Boolean. -/
def research (r : RE) (s : List Char) : Bool := searchFrom r none s

/-- Sequence a list of regular expressions. -/
def reSeq (l : List RE) : RE := l.foldr RE.seq RE.eps

/-- Alternation over a list (never matching when empty). -/
def reAltL : List RE → RE
  | [] => RE.cls (fun _ => false)
  | [r] => r
  | r :: rs => RE.alt r (reAltL rs)

/-- Alternation over literal words. -/
def reAltS (ss : List String) : RE := reAltL (ss.map (fun s => RE.lit s.data))

/-- Single-character literal as a class. -/
def reCh (c : Char) : RE := RE.cls (fun x => x == c)

/-!  app/utils/script_discriminator.py : ScriptDiscriminator. -/

/-- The PromQL signature patterns of `ScriptDiscriminator.detect_script_type`,
in source order. -/
def promql_patterns : List RE :=
  [ reSeq [RE.wordB,
      reAltS ["rate", "sum", "avg", "max", "min", "count", "histogram_quantile",
              "increase"],
      RE.starCls isPySpace, reCh '('],
    reSeq [reCh '[', RE.plusCls Char.isDigit,
      RE.cls (fun c => c == 's' || c == 'm' || c == 'h' || c == 'd'), reCh ']'],
    reSeq [reCh lbraceC, RE.starCls (fun c => !(c == rbraceC)), reCh rbraceC],
    reSeq [RE.lit (toCL "by"), RE.starCls isPySpace, reCh '(',
      RE.plusCls (fun c => !(c == ')')), reCh ')'],
    reSeq [RE.lit (toCL "without"), RE.starCls isPySpace, reCh '(',
      RE.plusCls (fun c => !(c == ')')), reCh ')'],
    RE.lit (toCL "node_filesystem_"),
    RE.lit (toCL "node_memory_"),
    RE.lit (toCL "node_cpu_"),
    RE.lit (toCL "container_memory_"),
    reSeq [RE.lit (toCL "up"), RE.starCls isPySpace, reCh lbraceC],
    reSeq [RE.lit (toCL "_total"), RE.starCls isPySpace, RE.eos],
    reSeq [RE.lit (toCL "_bytes"), RE.starCls isPySpace, reCh '/'] ]

/-- The Kubernetes-command signature patterns of
`ScriptDiscriminator.detect_script_type`, in source order. -/
def k8s_patterns : List RE :=
  [ reSeq [RE.wordB,
      reAltS ["kubectl", "get", "describe", "logs", "apply", "delete", "create"],
      RE.wordB],
    reSeq [RE.wordB,
      reAltS ["pods", "pod", "services", "svc", "deployments", "deploy", "nodes",
              "ns", "namespaces"],
      RE.wordB],
    RE.alt
      (reSeq [RE.wordB, RE.lit (toCL "-n"), RE.plusCls isPySpace,
        RE.plusCls isWordChar])
      (reSeq [RE.wordB, RE.lit (toCL "--namespace"), RE.plusCls isPySpace,
        RE.plusCls isWordChar]),
    RE.alt
      (reSeq [RE.wordB, RE.lit (toCL "-l"), RE.plusCls isPySpace,
        RE.plusCls isWordChar])
      (reSeq [RE.wordB, RE.lit (toCL "--selector"), RE.plusCls isPySpace,
        RE.plusCls isWordChar]),
    reSeq [RE.wordB, RE.lit (toCL "--field-selector"), RE.wordB] ]

/-- The language hints recognized by the fenced-code-block pattern, in the
order the alternation lists them. -/
def fenceHints : List (List Char) := [toCL "promql", toCL "yaml", toCL "bash", toCL "sh", toCL "kubectl"]

/-- The triple-backtick fence token. -/
def fenceTok : List Char := toCL "```"

/-- Case-insensitive prefix test against a lowercase pattern (the hint
alternation is matched with IGNORECASE). -/
def ciPrefix : List Char → List Char → Bool
  | [], _ => true
  | _ :: _, [] => false
  | h :: hs, c :: cs => (c.toLower == h) && ciPrefix hs cs

/-- Match the optional language-hint group right after an opening fence:
the matched hint text (original case) and the remainder. -/
def tryHint (r : List Char) : Option (List Char) × List Char :=
  match fenceHints.find? (fun h => ciPrefix h r) with
  | some h => (some (r.take h.length), r.drop h.length)
  | none => (none, r)

/-- Lazy scan for the block body: the shortest content such that an optional
newline and a closing fence follow, preferring to consume the newline
(the embedded pattern is an optional newline, a lazy dot-all group, an
optional newline, then the closing fence). Returns the captured content and
the text after the closing fence. -/
def lazyCaptureGo : List Char → List Char → Option (List Char × List Char)
  | [], _ => none
  | c :: t, acc =>
    if startsWithL fenceTok (c :: t) then some (acc.reverse, (c :: t).drop 3)
    else if c == '\n' && startsWithL fenceTok t then some (acc.reverse, t.drop 3)
    else lazyCaptureGo t (c :: acc)

/-- Match the part of the fenced-block pattern after the hint: consume the
optional leading newline greedily, then scan lazily for the closing fence. -/
def lazyCapture (r : List Char) : Option (List Char × List Char) :=
  match r with
  | '\n' :: t => lazyCaptureGo t []
  | _ => lazyCaptureGo r []

/-- Fueled scan of the whole text for fenced code blocks, as `re.findall`
with the fenced-block pattern: try each start position left to right and
continue after the end of each match. -/
def findBlocksFuel : Nat → List Char → List (Option (List Char) × List Char)
  | 0, _ => []
  | f + 1, s =>
    if startsWithL fenceTok s then
      match lazyCapture (tryHint (s.drop 3)).2 with
      | some capAfter =>
        ((tryHint (s.drop 3)).1, capAfter.1) :: findBlocksFuel f capAfter.2
      | none =>
        match s with
        | [] => []
        | _ :: t => findBlocksFuel f t
    else
      match s with
      | [] => []
      | _ :: t => findBlocksFuel f t

/-- All fenced code blocks of a text, as `re.findall` returns them:
(optional hint, captured body) in order of occurrence. -/
def findCodeBlocks (s : List Char) : List (Option (List Char) × List Char) :=
  findBlocksFuel s.length s

/-- The body of the per-block branch of `detect_script_type`: a tagged block
decides by its hint, an untagged nonempty block decides by the first
signature set that matches it (searched with IGNORECASE, modelled by
lowercasing the block). -/
def classifyBlock (hint : Option (List Char)) (block : List Char) :
    Option (List Char × List Char) :=
  let block_clean := pyStrip block
  match hint with
  | some h =>
    if toLowerL h == toCL "promql" then some (toCL "promql", block_clean)
    else if toLowerL h == toCL "bash" || toLowerL h == toCL "sh"
        || toLowerL h == toCL "kubectl" then
      some (toCL "kubernetes", block_clean)
    else none
  | none =>
    if !block_clean.isEmpty then
      if promql_patterns.any (fun p => research p (toLowerL block_clean)) then
        some (toCL "promql", block_clean)
      else if k8s_patterns.any (fun p => research p (toLowerL block_clean)) then
        some (toCL "kubernetes", block_clean)
      else none
    else none

/-- The code-block loop of `detect_script_type`: return the first block
decision, if any block yields one. -/
def classifyBlocks : List (Option (List Char) × List Char) →
    Option (List Char × List Char)
  | [] => none
  | hb :: rest =>
    match classifyBlock hb.1 hb.2 with
    | some r => some r
    | none => classifyBlocks rest

/-- The per-set score of the full-text stage: how many signature patterns
match the text. -/
def countMatches (pats : List RE) (s : List Char) : Nat :=
  (pats.filter (fun p => research p s)).length

/-- First line of a text matching any PromQL signature (IGNORECASE search,
modelled by lowercasing the line). -/
def firstPromqlLine (t : List Char) : Option (List Char) :=
  (splitOnCharL '\n' t).find?
    (fun line => promql_patterns.any (fun p => research p (toLowerL line)))

/-- First line whose lowercase form contains the word kubectl. -/
def firstKubectlLine (t : List Char) : Option (List Char) :=
  (splitOnCharL '\n' t).find?
    (fun line => containsL (toCL "kubectl") (toLowerL line))

/-- The special filesystem-query check of `detect_script_type`: when the
lowered text mentions filesystem together with one of avail/size/used/free,
return the first PromQL-matching line, stripped. -/
def fs_keyword_check (text text_lower : List Char) :
    Option (List Char × List Char) :=
  if containsL (toCL "filesystem") text_lower
      && (containsL (toCL "avail") text_lower
        || containsL (toCL "size") text_lower
        || containsL (toCL "used") text_lower
        || containsL (toCL "free") text_lower) then
    match firstPromqlLine (pyStrip text) with
    | some line => some (toCL "promql", pyStrip line)
    | none => none
  else none

/-- `ScriptDiscriminator.detect_script_type`: classify a text as a PromQL
fragment, a Kubernetes-command fragment, or unknown, and extract the
fragment. -/
def detect_script_type (text : List Char) : List Char × List Char :=
  let text_lower := pyStrip (toLowerL text)
  match classifyBlocks (findCodeBlocks text) with
  | some r => r
  | none =>
    let promql_matches := countMatches promql_patterns text_lower
    let k8s_matches := countMatches k8s_patterns text_lower
    match fs_keyword_check text text_lower with
    | some r => r
    | none =>
      if promql_matches > k8s_matches && promql_matches > 0 then
        match firstPromqlLine (pyStrip text) with
        | some line => (toCL "promql", pyStrip line)
        | none => (toCL "promql", pyStrip text)
      else if k8s_matches > promql_matches && k8s_matches > 0 then
        match firstKubectlLine (pyStrip text) with
        | some line => (toCL "kubernetes", pyStrip line)
        | none => (toCL "kubernetes", pyStrip text)
      else (toCL "unknown", pyStrip text)

/-!  app/services/prometheus.py : PrometheusService result formatting.
Numeric values are modelled as exact rationals; Python float formatting
(round-half-even at six digits) is reproduced on those rationals. -/

/-- Round a fraction of naturals to the nearest integer, ties to even, as
Python float formatting does (den is positive). -/
def roundHalfEvenFracN (num den : Nat) : Nat :=
  let f := num / den
  let r2 := 2 * (num % den)
  if r2 < den then f
  else if den < r2 then f + 1
  else if f % 2 == 0 then f else f + 1

/-- Round a fraction with integer numerator to the nearest integer, ties to
even (den is positive; floor division keeps the Python semantics). -/
def roundHalfEvenInt (num den : Int) : Int :=
  let f := num.fdiv den
  let r2 := 2 * (num - f * den)
  if r2 < den then f
  else if den < r2 then f + 1
  else if f % 2 == 0 then f else f + 1

/-- Decimal exponent of the positive fraction n / d: the unique e with
10 ^ e ≤ n / d < 10 ^ (e + 1), found from the digit counts. -/
def decExpOfND (n d : Nat) : Int :=
  let e0 : Int := (natToChars n).length - (natToChars d).length
  if 0 ≤ e0 then (if d * 10 ^ e0.toNat ≤ n then e0 else e0 - 1)
  else (if d ≤ n * 10 ^ (-e0).toNat then e0 else e0 - 1)

/-- The six-digit mantissa of n / d at exponent e:
round((n / d) * 10 ^ (6 - e)), computed on naturals. -/
def mant6 (n d : Nat) (e : Int) : Nat :=
  if e ≤ 6 then roundHalfEvenFracN (n * 10 ^ (6 - e).toNat) d
  else roundHalfEvenFracN n (d * 10 ^ (e - 6).toNat)

/-- Python format `%.6f`: fixed-point with six fractional digits, computed
as round-half-even of v * 10 ^ 6 on the exact fraction. -/
def pyFormatF6 (v : ℚ) : List Char :=
  let n := roundHalfEvenInt (v.num * 1000000) (v.den : Int)
  (if n < 0 then toCL "-" else [])
    ++ natToChars (n.natAbs / 1000000) ++ toCL "."
    ++ natToCharsPad 6 (n.natAbs % 1000000)

/-- Python format `%.6e`: scientific notation with six fractional digits and
a sign-and-two-digit exponent, computed on the exact fraction (mantissa
overflow after rounding bumps the exponent). -/
def pyFormatE6 (v : ℚ) : List Char :=
  if v.num == 0 then toCL "0.000000e+00"
  else
    let n := v.num.natAbs
    let d := v.den
    let e := decExpOfND n d
    let m := mant6 n d e
    let m2 := if m == 10000000 then 1000000 else m
    let e2 := if m == 10000000 then e + 1 else e
    let ds := natToChars m2
    (if v.num < 0 then toCL "-" else [])
      ++ ds.take 1 ++ toCL "." ++ ds.drop 1 ++ toCL "e"
      ++ (if e2 < 0 then toCL "-" else toCL "+") ++ natToCharsPad 2 e2.natAbs

/-- Absolute value on rationals, spelled out so that it computes. -/
def qabs (v : ℚ) : ℚ := if v < 0 then -v else v

/-- The magnitude threshold 1 / 1000 as a computing rational. -/
def qThousandth : ℚ := Rat.divInt 1 1000

/-- The numeric-value rendering shared by the vector formatters: scientific
notation when the magnitude is under 0.001 or over 100000, otherwise
fixed-point with trailing zeros (then a trailing dot) stripped. -/
def formatMetricValue (v : ℚ) : List Char :=
  if qabs v < qThousandth ∨ (100000 : ℚ) < qabs v then pyFormatE6 v
  else pyRstripChar '.' (pyRstripChar '0' (pyFormatF6 v))

/-- A Prometheus sample value: a parsed number, or the raw string when float
conversion raises ValueError. -/
inductive PromVal where
  | num : ℚ → PromVal
  | raw : List Char → PromVal

/-- One time series of a vector result: label set and optional
(timestamp, value) pair (absent when the value array has fewer than two
entries). -/
structure MetricEntry where
  metric : List (List Char × List Char)
  value : Option (Int × PromVal)

/-- The try/except float conversion applied to a sample value. -/
def formatValueOf : PromVal → List Char
  | .num q => formatMetricValue q
  | .raw s => s

/-- Join rendered pieces with a separator, as Python `str.join`. -/
def joinL (sep : List Char) : List (List Char) → List Char
  | [] => []
  | [x] => x
  | x :: y :: xs => x ++ sep ++ joinL sep (y :: xs)

/-- Label set rendered as `k=v` pairs joined by a comma and space. -/
def labelStr (labels : List (List Char × List Char)) : List Char :=
  joinL (toCL ", ") (labels.map (fun kv => kv.1 ++ toCL "=" ++ kv.2))

/-- The entry loop of `_format_vector_as_text` (entries numbered from one;
entries without a value pair emit nothing). -/
def vecTextEntries : Nat → List MetricEntry → List Char
  | _, [] => []
  | i, r :: rest =>
    (match r.value with
     | some tv =>
       toCL "**Result " ++ natToChars i ++ toCL ":** " ++ labelStr r.metric
         ++ toCL "\n**Value:** " ++ formatValueOf tv.2 ++ toCL "\n\n"
     | none => []) ++ vecTextEntries (i + 1) rest

/-- `PrometheusService._format_vector_as_text`. -/
def format_vector_as_text (query : List Char) (results : List MetricEntry) :
    List Char :=
  toCL "### Prometheus Query Results\n\n" ++ toCL "Query: `" ++ query
    ++ toCL "`\n\n" ++ vecTextEntries 1 results

/-- Code-point lexicographic order on strings, as Python `<`. -/
def listLexLt : List Char → List Char → Bool
  | [], [] => false
  | [], _ :: _ => true
  | _ :: _, [] => false
  | a :: as, b :: bs => if a == b then listLexLt as bs else decide (a < b)

/-- Insert into an ascending list, keeping it ascending. -/
def insertSortedKey (x : List Char) : List (List Char) → List (List Char)
  | [] => [x]
  | y :: ys => if listLexLt x y then x :: y :: ys else y :: insertSortedKey x ys

/-- Python `sorted` over distinct strings. -/
def sortKeys (l : List (List Char)) : List (List Char) :=
  l.foldr insertSortedKey []

/-- Python dict `get(key, "")` over the label association list. -/
def labelGet (labels : List (List Char × List Char)) (key : List Char) :
    List Char :=
  match labels.find? (fun kv => kv.1 == key) with
  | some kv => kv.2
  | none => []

/-- One table row of `_format_vector_as_table`. -/
def vecTableRow (keys : List (List Char)) (r : MetricEntry) : List Char :=
  toCL "| " ++ (keys.map (fun k => labelGet r.metric k ++ toCL " | ")).flatten
    ++ (match r.value with
        | some tv => formatValueOf tv.2 ++ toCL " |\n"
        | none => toCL "N/A |\n")

/-- `PrometheusService._format_vector_as_table`. -/
def format_vector_as_table (query : List Char) (results : List MetricEntry) :
    List Char :=
  if results.isEmpty then toCL "The query returned no results."
  else
    let sorted_label_keys :=
      sortKeys ((results.flatMap (fun r => r.metric.map Prod.fst)).eraseDups)
    let header :=
      toCL "| " ++ (sorted_label_keys.map (fun k => k ++ toCL " | ")).flatten
        ++ toCL "Value |\n"
    let separator :=
      toCL "| " ++ (sorted_label_keys.map (fun _ => toCL "--- | ")).flatten
        ++ toCL "--- |\n"
    let rows := (results.map (vecTableRow sorted_label_keys)).flatten
    toCL "### Prometheus Query Results\n\n" ++ toCL "Query: `" ++ query
      ++ toCL "`\n\n" ++ header ++ separator ++ rows
      ++ (if sorted_label_keys.length > 5 then
            toCL "\n**Note:** This table contains many columns and may not display well on small screens.\n"
          else [])

/-- `PrometheusService._format_matrix_as_table`. -/
def format_matrix_as_table (_query : List Char) (results : List MetricEntry) :
    List Char :=
  if results.isEmpty then toCL "The query returned no results."
  else toCL "Matrix results are complex time series. Consider using an instant query instead."

/-!  app/utils/formatters.py : K8sFormatter.  Resource snapshots carry the
fields the formatter reads; creation timestamps are modelled as epoch seconds
(always present in an API snapshot), the wall clock and the external
`yaml.dump`/`isoformat` renderers are passed in as parameters. -/

/-- A pod snapshot as read by the formatter. -/
structure PodItem where
  name : List Char
  nspace : List Char
  phase : List Char
  creation_timestamp : Int
deriving DecidableEq

/-- A pod list result (`V1PodList`). -/
structure PodList where
  items : List PodItem
deriving DecidableEq

/-- A service port (`port/protocol`). -/
structure SvcPort where
  port : Int
  protocol : List Char

/-- A service snapshot as read by the formatter. -/
structure SvcItem where
  name : List Char
  nspace : List Char
  type : List Char
  cluster_ip : List Char
  ports : List SvcPort
  creation_timestamp : Int

/-- A service list result. -/
structure SvcList where
  items : List SvcItem

/-- A deployment snapshot as read by the formatter. -/
structure DeployItem where
  name : List Char
  nspace : List Char
  replicas : Option Int
  ready_replicas : Option Int
  creation_timestamp : Int

/-- A deployment list result. -/
structure DeployList where
  items : List DeployItem

/-- A namespace snapshot as read by the formatter. -/
structure NsItem where
  name : List Char
  phase : List Char
  creation_timestamp : Int

/-- A namespace list result. -/
structure NsList where
  items : List NsItem

/-- A node condition (`type`/`status`). -/
structure NodeCondition where
  type : List Char
  status : List Char

/-- A node snapshot as read by the formatter (`kubelet_version` is absent
when `node.status.node_info` is missing). -/
structure NodeItem where
  name : List Char
  conditions : List NodeCondition
  kubelet_version : Option (List Char)
  creation_timestamp : Int

/-- A node list result. -/
structure NodeList where
  items : List NodeItem

/-- Values handed to the external `yaml.dump` renderer. -/
inductive YamlVal where
  | s : List Char → YamlVal
  | i : Int → YamlVal

/-- Type of the external `yaml.dump(dict, default_flow_style=False)`
collaborator. -/
def YamlDump : Type := List (List Char × YamlVal) → List Char

/-- Type of the external `datetime.isoformat` collaborator. -/
def IsoFmt : Type := Int → List Char

/-- `K8sFormatter._calculate_age`: the elapsed time is normalized as a Python
timedelta (floor days, remainder seconds in [0, 86400)) and rendered with the
source's strict threshold chain. -/
def calculate_age (now creation : Int) : List Char :=
  let total := now - creation
  let days := Int.fdiv total 86400
  let seconds := Int.fmod total 86400
  if days > 0 then intToChars days ++ toCL "d"
  else if seconds > 3600 then intToChars (Int.fdiv seconds 3600) ++ toCL "h"
  else if seconds > 60 then intToChars (Int.fdiv seconds 60) ++ toCL "m"
  else intToChars seconds ++ toCL "s"

/-- Increment the count of a key in an insertion-ordered count list
(Python `dict.get(k, 0) + 1` update). -/
def bumpCount (k : List Char) : List (List Char × Nat) → List (List Char × Nat)
  | [] => [(k, 1)]
  | kv :: rest => if kv.1 == k then (kv.1, kv.2 + 1) :: rest else kv :: bumpCount k rest

/-- Insert a (key, count) pair into a key-ascending list. -/
def insertSortedPair (x : List Char × Nat) :
    List (List Char × Nat) → List (List Char × Nat)
  | [] => [x]
  | y :: ys => if listLexLt x.1 y.1 then x :: y :: ys else y :: insertSortedPair x ys

/-- Python `sorted(status_counts.items())` (keys are distinct). -/
def sortPairs (l : List (List Char × Nat)) : List (List Char × Nat) :=
  l.foldr insertSortedPair []

/-- `K8sFormatter.format_pods_as_table`. -/
def format_pods_as_table (now : Int) (pods : PodList) : List Char :=
  if pods.items.isEmpty then toCL "No pods found matching the criteria."
  else
    let rows :=
      (pods.items.map (fun pod =>
        toCL "| " ++ pod.name ++ toCL " | " ++ pod.nspace ++ toCL " | **"
          ++ pod.phase ++ toCL "** | " ++ calculate_age now pod.creation_timestamp
          ++ toCL " |\n")).flatten
    let status_counts :=
      pods.items.foldl (fun acc pod => bumpCount pod.phase acc) []
    let summary :=
      if !status_counts.isEmpty then
        toCL "\n**Summary:** "
          ++ joinL (toCL ", ")
              ((sortPairs status_counts).map
                (fun kv => natToChars kv.2 ++ toCL " " ++ kv.1))
      else []
    toCL "### Pods\n\n" ++ toCL "| Name | Namespace | Status | Age |\n"
      ++ toCL "| --- | --- | --- | --- |\n" ++ rows ++ summary

/-- `K8sFormatter.format_pods_as_yaml`. -/
def format_pods_as_yaml (dump : YamlDump) (iso : IsoFmt) (pods : PodList) :
    List Char :=
  if pods.items.isEmpty then toCL "No pods found."
  else
    toCL "### Pods (YAML)\n\n```yaml\n"
      ++ (pods.items.map (fun pod =>
            dump [(toCL "name", .s pod.name), (toCL "namespace", .s pod.nspace),
                  (toCL "status", .s pod.phase),
                  (toCL "creation_timestamp", .s (iso pod.creation_timestamp))]
              ++ toCL "---\n")).flatten
      ++ toCL "```"

/-- `K8sFormatter.format_services_as_table`. -/
def format_services_as_table (services : SvcList) : List Char :=
  if services.items.isEmpty then toCL "No services found."
  else
    toCL "### Services\n\n"
      ++ toCL "| Name | Namespace | Type | Cluster-IP | Port(s) |\n"
      ++ toCL "| --- | --- | --- | --- | --- |\n"
      ++ (services.items.map (fun svc =>
            let ports := svc.ports.map (fun p =>
              intToChars p.port ++ toCL "/" ++ p.protocol)
            let ports_str := if !ports.isEmpty then joinL (toCL ",") ports
                             else toCL "None"
            toCL "| " ++ svc.name ++ toCL " | " ++ svc.nspace ++ toCL " | "
              ++ svc.type ++ toCL " | " ++ svc.cluster_ip ++ toCL " | "
              ++ ports_str ++ toCL " |\n")).flatten

/-- `K8sFormatter.format_services_as_yaml`. -/
def format_services_as_yaml (dump : YamlDump) (iso : IsoFmt)
    (services : SvcList) : List Char :=
  if services.items.isEmpty then toCL "No services found."
  else
    toCL "### Services (YAML)\n\n```yaml\n"
      ++ (services.items.map (fun svc =>
            dump [(toCL "name", .s svc.name), (toCL "namespace", .s svc.nspace),
                  (toCL "type", .s svc.type),
                  (toCL "cluster_ip", .s svc.cluster_ip),
                  (toCL "creation_timestamp", .s (iso svc.creation_timestamp))]
              ++ toCL "---\n")).flatten
      ++ toCL "```"

/-- `K8sFormatter.format_deployments_as_table`. -/
def format_deployments_as_table (now : Int) (deployments : DeployList) :
    List Char :=
  if deployments.items.isEmpty then toCL "No deployments found."
  else
    toCL "### Deployments\n\n" ++ toCL "| Name | Namespace | Ready | Age |\n"
      ++ toCL "| --- | --- | --- | --- |\n"
      ++ (deployments.items.map (fun d =>
            let replicas := d.replicas.getD 0
            let ready_replicas := d.ready_replicas.getD 0
            toCL "| " ++ d.name ++ toCL " | " ++ d.nspace ++ toCL " | "
              ++ intToChars ready_replicas ++ toCL "/" ++ intToChars replicas
              ++ toCL " | " ++ calculate_age now d.creation_timestamp
              ++ toCL " |\n")).flatten

/-- `K8sFormatter.format_deployments_as_yaml`. -/
def format_deployments_as_yaml (dump : YamlDump) (iso : IsoFmt)
    (deployments : DeployList) : List Char :=
  if deployments.items.isEmpty then toCL "No deployments found."
  else
    toCL "### Deployments (YAML)\n\n```yaml\n"
      ++ (deployments.items.map (fun d =>
            dump [(toCL "name", .s d.name), (toCL "namespace", .s d.nspace),
                  (toCL "replicas", .i (d.replicas.getD 0)),
                  (toCL "ready_replicas", .i (d.ready_replicas.getD 0)),
                  (toCL "creation_timestamp", .s (iso d.creation_timestamp))]
              ++ toCL "---\n")).flatten
      ++ toCL "```"

/-- `K8sFormatter.format_namespaces_as_table`. -/
def format_namespaces_as_table (now : Int) (namespaces : NsList) : List Char :=
  if namespaces.items.isEmpty then toCL "No namespaces found."
  else
    toCL "### Namespaces\n\n" ++ toCL "| Name | Status | Age |\n"
      ++ toCL "| --- | --- | --- |\n"
      ++ (namespaces.items.map (fun ns =>
            toCL "| " ++ ns.name ++ toCL " | " ++ ns.phase ++ toCL " | "
              ++ calculate_age now ns.creation_timestamp ++ toCL " |\n")).flatten

/-- `K8sFormatter.format_namespaces_as_yaml`. -/
def format_namespaces_as_yaml (dump : YamlDump) (iso : IsoFmt)
    (namespaces : NsList) : List Char :=
  if namespaces.items.isEmpty then toCL "No namespaces found."
  else
    toCL "### Namespaces (YAML)\n\n```yaml\n"
      ++ (namespaces.items.map (fun ns =>
            dump [(toCL "name", .s ns.name), (toCL "status", .s ns.phase),
                  (toCL "creation_timestamp", .s (iso ns.creation_timestamp))]
              ++ toCL "---\n")).flatten
      ++ toCL "```"

/-- The Ready-condition scan shared by the node formatters. -/
def nodeReadyStatus (conds : List NodeCondition) : List Char :=
  match conds.find? (fun c => c.type == toCL "Ready") with
  | some c => if c.status == toCL "True" then toCL "Ready" else toCL "NotReady"
  | none => toCL "Unknown"

/-- `K8sFormatter.format_nodes_as_table`. -/
def format_nodes_as_table (now : Int) (nodes : NodeList) : List Char :=
  if nodes.items.isEmpty then toCL "No nodes found."
  else
    toCL "### Nodes\n\n" ++ toCL "| Name | Status | Age | Version |\n"
      ++ toCL "| --- | --- | --- | --- |\n"
      ++ (nodes.items.map (fun node =>
            let status := nodeReadyStatus node.conditions
            let version := node.kubelet_version.getD (toCL "Unknown")
            toCL "| " ++ node.name ++ toCL " | " ++ status ++ toCL " | "
              ++ calculate_age now node.creation_timestamp ++ toCL " | "
              ++ version ++ toCL " |\n")).flatten

/-- `K8sFormatter.format_nodes_as_yaml`. -/
def format_nodes_as_yaml (dump : YamlDump) (iso : IsoFmt) (nodes : NodeList) :
    List Char :=
  if nodes.items.isEmpty then toCL "No nodes found."
  else
    toCL "### Nodes (YAML)\n\n```yaml\n"
      ++ (nodes.items.map (fun node =>
            dump [(toCL "name", .s node.name),
                  (toCL "status", .s (nodeReadyStatus node.conditions)),
                  (toCL "version", .s (node.kubelet_version.getD (toCL "Unknown"))),
                  (toCL "creation_timestamp", .s (iso node.creation_timestamp))]
              ++ toCL "---\n")).flatten
      ++ toCL "```"

/-!  app/services/kubernetes.py : KubernetesService.  The Kubernetes API,
the subprocess runner and the wall clock are oracle parameters; Python
exceptions travel in the error channel of `Except`. -/

/-- Backtick character (written by code point to keep literals plain). -/
def backqC : Char := Char.ofNat 96

/-- Backslash character. -/
def bslashC : Char := '\\'

/-- The whitespace characters of the stdlib `shlex` lexer. -/
def shlexIsWs (c : Char) : Bool := c == ' ' || c == '\t' || c == '\r' || c == '\n'

/-- Lexer states of POSIX `shlex`: outside quotes, in single quotes, in
double quotes. -/
inductive ShState where
  | normal : ShState
  | single : ShState
  | double : ShState

/-- The POSIX `shlex.split` lexer: `cur` is the token being accumulated
(reversed), `none` when no token is open.  Unbalanced quotes and a trailing
escape raise ValueError, modelled in the error channel. -/
def shlexGo : List Char → ShState → Option (List Char) → Except (List Char) (List (List Char))
  | [], .normal, none => .ok []
  | [], .normal, some t => .ok [t.reverse]
  | [], .single, _ => .error (toCL "No closing quotation")
  | [], .double, _ => .error (toCL "No closing quotation")
  | c :: cs, .normal, cur =>
    if shlexIsWs c then
      match cur with
      | none => shlexGo cs .normal none
      | some t => (shlexGo cs .normal none).map (fun ts => t.reverse :: ts)
    else if c == aposC then shlexGo cs .single (some (cur.getD []))
    else if c == dquoteC then shlexGo cs .double (some (cur.getD []))
    else if c == bslashC then
      match cs with
      | [] => .error (toCL "No escaped character")
      | d :: ds => shlexGo ds .normal (some (d :: cur.getD []))
    else shlexGo cs .normal (some (c :: cur.getD []))
  | c :: cs, .single, cur =>
    if c == aposC then shlexGo cs .normal (some (cur.getD []))
    else shlexGo cs .single (some (c :: cur.getD []))
  | c :: cs, .double, cur =>
    if c == dquoteC then shlexGo cs .normal (some (cur.getD []))
    else if c == bslashC then
      match cs with
      | [] => .error (toCL "No escaped character")
      | d :: ds =>
        if d == dquoteC || d == bslashC then shlexGo ds .double (some (d :: cur.getD []))
        else shlexGo ds .double (some (d :: bslashC :: cur.getD []))
    else shlexGo cs .double (some (c :: cur.getD []))

/-- Python `shlex.split` (POSIX mode, whitespace split, no comments). -/
def shlexSplit (s : List Char) : Except (List Char) (List (List Char)) :=
  shlexGo s .normal none

/-- The allow-list of kubectl verbs (`self.allowed_kubectl_commands`). -/
def allowed_kubectl_commands : List (List Char) :=
  [toCL "get", toCL "describe", toCL "logs", toCL "cluster-info", toCL "version",
   toCL "config", toCL "api-resources", toCL "api-versions", toCL "top"]

/-- The mutating-verb regex patterns (each verb followed by whitespace). -/
def dangerous_patterns : List RE :=
  [toCL "delete", toCL "apply", toCL "create", toCL "patch",
   toCL "edit", toCL "exec", toCL "cp", toCL "auth"].map
    (fun v => RE.seq (RE.lit v) (RE.plusCls isPySpace))

/-- The rejected shell metacharacters. -/
def shell_chars : List Char :=
  ['&', '|', ';', backqC, '$', '<', '>', '(', ')', lbraceC, rbraceC]

/-- Drop a leading kubectl program token from a token list. -/
def dropKubectlTok (parts : List (List Char)) : List (List Char) :=
  match parts with
  | [] => []
  | p :: ps => if p == toCL "kubectl" then ps else p :: ps

/-- `KubernetesService._is_safe_kubectl_command`: allow-list the main verb,
reject mutating-verb patterns and shell metacharacters.  The error channel
carries a ValueError escaping from `shlex.split`. -/
def is_safe_kubectl_command (command : List Char) : Except (List Char) Bool :=
  let normalized := toLowerL (pyStrip command)
  match shlexSplit normalized with
  | .error e => .error e
  | .ok parts0 =>
    match dropKubectlTok parts0 with
    | [] => .ok false
    | main_verb :: _ =>
      if !(allowed_kubectl_commands.any (fun a => a == main_verb)) then .ok false
      else if dangerous_patterns.any (fun p => research p normalized) then .ok false
      else if shell_chars.any (fun c => containsC c command) then .ok false
      else .ok true

/-- Result of one `subprocess.run` invocation (external collaborator). -/
inductive RunResult where
  | finished : Int → List Char → List Char → RunResult
  | timeout : RunResult
  | raised : List Char → RunResult

/-- Type of the subprocess-runner collaborator. -/
def KubectlRunner : Type := List (List Char) → RunResult

/-- Output of the subprocess path together with whether the subprocess was
actually invoked. -/
structure SubprocResult where
  output : List Char
  ran : Bool

/-- The security-rejection message of the subprocess path. -/
def securityRejectionMsg (command : List Char) : List Char :=
  toCL "Error: Command " ++ [aposC] ++ command ++ [aposC]
    ++ toCL " is not allowed for security reasons."

/-- `KubernetesService._execute_kubectl_via_subprocess`.  The safety check
runs outside the try block, so a ValueError it raises propagates (error
channel); everything after it is inside the try and is caught. -/
def execute_kubectl_via_subprocess (runner : KubectlRunner)
    (kubectl_path command fmt : List Char) : Except (List Char) SubprocResult :=
  match is_safe_kubectl_command command with
  | .error e => .error e
  | .ok false => .ok ⟨securityRejectionMsg command, false⟩
  | .ok true =>
    match shlexSplit command with
    | .error e => .ok ⟨toCL "Error executing command via subprocess: " ++ e, false⟩
    | .ok parts0 =>
      let parts1 := match parts0 with
        | [] => [kubectl_path]
        | p :: ps =>
          if !(toLowerL p == toCL "kubectl") then kubectl_path :: p :: ps
          else kubectl_path :: ps
      let noOutFlag := !(containsL (toCL "--output") command)
        && !(containsL (toCL "-o") command)
      let parts2 :=
        if fmt == toCL "json" && noOutFlag then
          parts1 ++ [toCL "--output", toCL "json"]
        else if fmt == toCL "yaml" && noOutFlag then
          parts1 ++ [toCL "--output", toCL "yaml"]
        else parts1
      match runner parts2 with
      | .timeout =>
        .ok ⟨toCL "Error: Command " ++ [aposC] ++ command ++ [aposC]
          ++ toCL " timed out after 30 seconds.", true⟩
      | .raised m =>
        .ok ⟨toCL "Error executing command via subprocess: " ++ m, true⟩
      | .finished rc out err =>
        if rc == 0 then
          let output := pyStrip out
          if output.isEmpty then
            .ok ⟨toCL "Command executed successfully but returned no output.", true⟩
          else if fmt == toCL "table"
              && !(containsL (toCL "-o") command || containsL (toCL "--output") command) then
            .ok ⟨toCL "### kubectl Command: " ++ command ++ toCL "\n\n```\n"
              ++ output ++ toCL "\n```", true⟩
          else
            .ok ⟨toCL "### kubectl Command: " ++ command ++ toCL "\n\n```yaml\n"
              ++ output ++ toCL "\n```", true⟩
        else
          .ok ⟨toCL "Error executing command " ++ [aposC] ++ command ++ [aposC]
            ++ toCL ":\n```\n" ++ pyStrip err ++ toCL "\n```", true⟩

/-- Scan whitespace tokens for the first flag in `flags` followed by a value
(the per-handler flag loops with break). -/
def flagValue (flags : List (List Char)) : List (List Char) → Option (List Char)
  | [] => none
  | p :: ps =>
    if flags.any (fun f => f == p) then
      match ps with
      | v :: _ => some v
      | [] => flagValue flags ps
    else flagValue flags ps

/-- The namespace parse shared by the list handlers: default namespace unless
a namespace flag with a value is present (and all-namespaces is off). -/
def parseNamespaceArg (all_namespaces : Bool) (command : List Char) : List Char :=
  if !all_namespaces
      && (containsL (toCL "-n ") command || containsL (toCL "--namespace ") command) then
    match flagValue [toCL "-n", toCL "--namespace"] (pySplitWs command) with
    | some v => v
    | none => toCL "default"
  else toCL "default"

/-- The label-selector parse of `_get_pods`. -/
def parseLabelSelector (command : List Char) : Option (List Char) :=
  if containsL (toCL "-l ") command || containsL (toCL "--selector ") command then
    flagValue [toCL "-l", toCL "--selector"] (pySplitWs command)
  else none

/-- The field-selector parse of `_get_pods`: the value after the flag (first
whitespace token, quotes stripped).  A not-equal phase filter is diverted to
the client side (`field_selector` is dropped); the error channel is the
IndexError Python raises when nothing follows the flag. -/
def parseFieldSelector (command : List Char) :
    Except (List Char) (Option (List Char) × Option (List Char)) :=
  if containsL (toCL "--field-selector=") command then
    let parts := splitOnSubL (toCL "--field-selector=") command
    if parts.length > 1 then
      match (pySplitWs (parts.getD 1 [])).head? with
      | none => .error (toCL "list index out of range")
      | some tok =>
        let v := pyStripChars [aposC, dquoteC] tok
        if containsL (toCL "!=") v && containsL (toCL "status.phase") v then
          .ok (none, some v)
        else .ok (some v, none)
    else .ok (none, none)
  else .ok (none, none)

/-- The client-side phase-exclusion cascade of `_get_pods`. -/
def clientSideFilterPods (csf : List Char) (items : List PodItem) : List PodItem :=
  if csf == toCL "status.phase!=Running" then
    items.filter (fun p => !(p.phase == toCL "Running"))
  else if csf == toCL "status.phase!=Succeeded" then
    items.filter (fun p => !(p.phase == toCL "Succeeded"))
  else if csf == toCL "status.phase!=Failed" then
    items.filter (fun p => !(p.phase == toCL "Failed"))
  else if containsL (toCL "status.phase!=") csf then
    let exclude := (splitOnSubL (toCL "status.phase!=") csf).getD 1 []
    items.filter (fun p => !(p.phase == exclude))
  else items

/-- The client-side-filter annotation prepended to the output of `_get_pods`. -/
def clientFilterNote (csf : List Char) (count : Nat) : List Char :=
  toCL "**Note:** Filtered " ++ natToChars count
    ++ toCL " pods client-side (field-selector " ++ [aposC] ++ csf ++ [aposC]
    ++ toCL " not supported server-side)\n\n"

/-- `KubernetesService._get_pods`.  The two list oracles are the namespaced
and the all-namespaces pod-list API calls; their error channel is a caught
ApiException reason.  The outer error channel is an uncaught parse
exception. -/
def get_pods
    (listNS : List Char → Option (List Char) → Option (List Char) →
      Except (List Char) PodList)
    (listAll : Option (List Char) → Option (List Char) → Except (List Char) PodList)
    (now : Int) (dump : YamlDump) (iso : IsoFmt) (command fmt : List Char) :
    Except (List Char) (List Char) :=
  let all_namespaces := containsL (toCL "--all-namespaces") command
  let nspace := parseNamespaceArg all_namespaces command
  let label_selector := parseLabelSelector command
  match parseFieldSelector command with
  | .error e => .error e
  | .ok (field_selector, client_side_filter) =>
    match (if all_namespaces then listAll label_selector field_selector
           else listNS nspace label_selector field_selector) with
    | .error reason => .ok (toCL "Error getting pods: " ++ reason)
    | .ok pods =>
      let pods2 : PodList :=
        match client_side_filter with
        | some csf => ⟨clientSideFilterPods csf pods.items⟩
        | none => pods
      let note :=
        match client_side_filter with
        | some csf => clientFilterNote csf pods2.items.length
        | none => []
      .ok (note ++ (if fmt == toCL "table" then format_pods_as_table now pods2
                    else format_pods_as_yaml dump iso pods2))

/-- `KubernetesService._get_services`. -/
def get_services
    (listNS : List Char → Except (List Char) SvcList)
    (listAll : Unit → Except (List Char) SvcList)
    (dump : YamlDump) (iso : IsoFmt) (command fmt : List Char) : List Char :=
  let all_namespaces := containsL (toCL "--all-namespaces") command
  let nspace := parseNamespaceArg all_namespaces command
  match (if all_namespaces then listAll () else listNS nspace) with
  | .error reason => toCL "Error getting services: " ++ reason
  | .ok services =>
    if fmt == toCL "table" then format_services_as_table services
    else format_services_as_yaml dump iso services

/-- `KubernetesService._get_deployments`. -/
def get_deployments
    (listNS : List Char → Except (List Char) DeployList)
    (listAll : Unit → Except (List Char) DeployList)
    (now : Int) (dump : YamlDump) (iso : IsoFmt) (command fmt : List Char) :
    List Char :=
  let all_namespaces := containsL (toCL "--all-namespaces") command
  let nspace := parseNamespaceArg all_namespaces command
  match (if all_namespaces then listAll () else listNS nspace) with
  | .error reason => toCL "Error getting deployments: " ++ reason
  | .ok deployments =>
    if fmt == toCL "table" then format_deployments_as_table now deployments
    else format_deployments_as_yaml dump iso deployments

/-- `KubernetesService._get_namespaces`. -/
def get_namespaces
    (listNs : Unit → Except (List Char) NsList)
    (now : Int) (dump : YamlDump) (iso : IsoFmt) (fmt : List Char) : List Char :=
  match listNs () with
  | .error reason => toCL "Error getting namespaces: " ++ reason
  | .ok namespaces =>
    if fmt == toCL "table" then format_namespaces_as_table now namespaces
    else format_namespaces_as_yaml dump iso namespaces

/-- `KubernetesService._get_nodes`. -/
def get_nodes
    (listNodes : Unit → Except (List Char) NodeList)
    (now : Int) (dump : YamlDump) (iso : IsoFmt) (fmt : List Char) : List Char :=
  match listNodes () with
  | .error reason => toCL "Error getting nodes: " ++ reason
  | .ok nodes =>
    if fmt == toCL "table" then format_nodes_as_table now nodes
    else format_nodes_as_yaml dump iso nodes

/-- A caught ApiException carries the HTTP status and the reason. -/
structure ApiErr where
  status : Int
  reason : List Char

/-- The pod detail read by `_describe_pod`. -/
structure PodDetail where
  nspace : List Char
  phase : List Char
  node_name : Option (List Char)
  creation_timestamp : Int

/-- One event read by `_describe_pod`. -/
structure EventItem where
  type : List Char
  reason : List Char
  message : List Char
  last_timestamp : Int

/-- Stable insertion into a descending-by-timestamp event list. -/
def insertEventDesc (x : EventItem) : List EventItem → List EventItem
  | [] => [x]
  | y :: ys =>
    if x.last_timestamp > y.last_timestamp then x :: y :: ys
    else y :: insertEventDesc x ys

/-- Python `sorted(events, key=last_timestamp, reverse=True)` (stable). -/
def sortEventsDesc (l : List EventItem) : List EventItem :=
  l.foldl (fun acc x => insertEventDesc x acc) []

/-- The pod-name and namespace parse of `_describe_pod`. -/
def describePodArgs (command : List Char) : Option (List Char) × List Char :=
  let parts := pySplitWs command
  let pod_keyword_index :=
    if parts.any (fun p => p == toCL "pod") then
      parts.findIdx (fun p => p == toCL "pod")
    else if parts.any (fun p => p == toCL "pods") then
      parts.findIdx (fun p => p == toCL "pods")
    else parts.length
  let pod_name :=
    match parts.drop (pod_keyword_index + 1) with
    | v :: _ => if !(startsWithL (toCL "-") v) then some v else none
    | [] => none
  let nspace :=
    match flagValue [toCL "-n", toCL "--namespace"] parts with
    | some v => v
    | none => toCL "default"
  (pod_name, nspace)

/-- `KubernetesService._describe_pod`; `showDT` is Python `str` applied to
the creation datetime (external rendering). -/
def describe_pod
    (readPod : List Char → List Char → Except ApiErr PodDetail)
    (listEvents : List Char → List Char → Except (List Char) (List EventItem))
    (showDT : Int → List Char)
    (command _fmt : List Char) : List Char :=
  match describePodArgs command with
  | (none, _) => toCL "Error: Pod name not found in describe command."
  | (some pod_name, nspace) =>
    match readPod pod_name nspace with
    | .error e =>
      if e.status == 404 then
        toCL "Error: Pod " ++ [aposC] ++ pod_name ++ [aposC]
          ++ toCL " not found in namespace " ++ [aposC] ++ nspace ++ [aposC]
      else toCL "Error describing pod: " ++ e.reason
    | .ok pod_obj =>
      let events_str :=
        match listEvents nspace (toCL "involvedObject.name=" ++ pod_name) with
        | .error _ => toCL "Could not fetch events."
        | .ok events =>
          if !events.isEmpty then
            joinL (toCL "\n")
              (((sortEventsDesc events).take 10).map (fun e =>
                toCL "- **Type**: " ++ e.type ++ toCL ", **Reason**: " ++ e.reason
                  ++ toCL ", **Message**: " ++ e.message))
          else toCL "No events found."
      toCL "### Pod Description: " ++ pod_name ++ toCL "\n\n"
        ++ toCL "**Namespace:** " ++ [backqC] ++ pod_obj.nspace ++ [backqC]
        ++ toCL "\n**Status:** " ++ [backqC] ++ pod_obj.phase ++ [backqC]
        ++ toCL "\n**Node:** " ++ [backqC]
        ++ (pod_obj.node_name.getD (toCL "Not assigned")) ++ [backqC]
        ++ toCL "\n**Created:** " ++ [backqC]
        ++ showDT pod_obj.creation_timestamp ++ [backqC] ++ toCL "\n\n"
        ++ toCL "#### Recent Events\n" ++ events_str

/-- Python `int(str)`: optional sign and decimal digits after stripping
whitespace; anything else raises ValueError. -/
def pyParseInt (s : List Char) : Except (List Char) Int :=
  let err : Except (List Char) Int :=
    .error (toCL "invalid literal for int() with base 10: " ++ [aposC] ++ s ++ [aposC])
  let digitsVal : List Char → Option Nat := fun ds =>
    if ds.isEmpty || ds.any (fun c => !c.isDigit) then none
    else some (ds.foldl (fun acc c => acc * 10 + (c.toNat - 48)) 0)
  match pyStrip s with
  | '-' :: rest => match digitsVal rest with
    | some n => .ok (-(n : Int))
    | none => err
  | '+' :: rest => match digitsVal rest with
    | some n => .ok (n : Int)
    | none => err
  | t => match digitsVal t with
    | some n => .ok (n : Int)
    | none => err

/-- The flag-scan loop of `_get_logs` over enumerated whitespace tokens:
yields (namespace, tail lines, pod name); the error channel is a ValueError
from `int` on a malformed tail flag. -/
def logsScan (parts : List (List Char)) :
    Except (List Char) (List Char × Int × Option (List Char)) :=
  (List.range parts.length).foldl
    (fun acc i =>
      match acc with
      | .error e => .error e
      | .ok (ns, lines, pn) =>
        let part := parts.getD i []
        if (part == toCL "-n" || part == toCL "--namespace")
            && i + 1 < parts.length then
          .ok (parts.getD (i + 1) [], lines, pn)
        else if startsWithL (toCL "--tail=") part then
          match pyParseInt ((splitOnCharL '=' part).getD 1 []) with
          | .ok v => .ok (ns, v, pn)
          | .error e => .error e
        else if !(part == toCL "kubectl" || part == toCL "logs"
            || part == toCL "-n" || part == toCL "--namespace")
            && !(startsWithL (toCL "--") part) then
          if i > 0 && !(parts.getD (i - 1) [] == toCL "-n"
              || parts.getD (i - 1) [] == toCL "--namespace") then
            .ok (ns, lines, some part)
          else .ok (ns, lines, pn)
        else .ok (ns, lines, pn))
    (.ok (toCL "default", 100, none))

/-- `KubernetesService._get_logs`. -/
def get_logs
    (readLog : List Char → List Char → Int → Except (List Char) (List Char))
    (command _fmt : List Char) : Except (List Char) (List Char) :=
  let parts := pySplitWs command
  match logsScan parts with
  | .error e => .error e
  | .ok (nspace, lines, pn) =>
    let pod_name :=
      match pn with
      | some p => some p
      | none =>
        match parts.getLast? with
        | some last => if !(startsWithL (toCL "-") last) then some last else none
        | none => none
    match pod_name with
    | none => .ok (toCL "Error: Pod name is required for logs command")
    | some name =>
      match readLog name nspace lines with
      | .error reason => .ok (toCL "Error getting logs: " ++ reason)
      | .ok logs =>
        .ok (toCL "### Logs for pod " ++ name ++ toCL " (last "
          ++ intToChars lines ++ toCL " lines)\n\n```\n" ++ logs ++ toCL "\n```")

/-- The Kubernetes API collaborator bundle. -/
structure K8sApi where
  listNSPod : List Char → Option (List Char) → Option (List Char) →
    Except (List Char) PodList
  listAllPod : Option (List Char) → Option (List Char) → Except (List Char) PodList
  listNSSvc : List Char → Except (List Char) SvcList
  listAllSvc : Unit → Except (List Char) SvcList
  listNSDeploy : List Char → Except (List Char) DeployList
  listAllDeploy : Unit → Except (List Char) DeployList
  listNs : Unit → Except (List Char) NsList
  listNodes : Unit → Except (List Char) NodeList
  readPod : List Char → List Char → Except ApiErr PodDetail
  listEvents : List Char → List Char → Except (List Char) (List EventItem)
  readLog : List Char → List Char → Int → Except (List Char) (List Char)

/-- Rendering collaborators and the wall clock. -/
structure K8sEnv where
  now : Int
  dump : YamlDump
  iso : IsoFmt
  showDT : Int → List Char

/-- The service configuration read from the environment. -/
structure K8sCfg where
  client_available : Bool
  enable_subprocess : Bool
  kubectl_path : List Char

/-- Outcome of `execute_kubectl_command`: the produced text (error channel =
an exception escaping the method), whether any Kubernetes API operation was
invoked, and whether a subprocess was actually run. -/
structure ExecResult where
  output : Except (List Char) (List Char)
  apiCalled : Bool
  subprocRan : Bool

/-- `KubernetesService._get_client_unavailable_message`. -/
def client_unavailable_message : List Char :=
  toCL "### Kubernetes Client Not Available\n\n**Status:** The Kubernetes Python client failed to initialize.\n\n**Possible causes:**\n- No kubeconfig file found\n- Invalid cluster credentials\n- Network connectivity issues\n- Missing cluster access permissions\n\n**Solutions:**\n1. Check if kubeconfig exists at ~/.kube/config\n2. Set KUBERNETES_CONFIG_PATH environment variable\n3. Enable subprocess execution with ENABLE_KUBECTL_SUBPROCESS=true\n4. Verify cluster connectivity and permissions"

/-- `KubernetesService._handle_unsupported_command`. -/
def unsupported_command_message (command : List Char) : List Char :=
  toCL "### Command Not Supported: " ++ command
    ++ toCL "\n\n**Supported Operations:**\n- Resource listing: `get pods`, `get services`, `get deployments`, `get namespaces`, `get nodes`\n- Resource description: `describe pod <name>`\n- Log retrieval: `logs <pod-name>`\n\n**Note:** For advanced kubectl commands, enable subprocess execution with ENABLE_KUBECTL_SUBPROCESS=true"

/-- The fall-through tail of the dispatcher (unrecognized verb or resource):
subprocess fallback when enabled (inside the try block, so an escaping
ValueError is caught), otherwise the not-supported message. -/
def executeFallthrough (cfg : K8sCfg) (runner : KubectlRunner)
    (original_command fmt : List Char) : ExecResult :=
  if cfg.enable_subprocess then
    match execute_kubectl_via_subprocess runner cfg.kubectl_path original_command fmt with
    | .error e => ⟨.ok (toCL "Error executing kubectl command: " ++ e), false, false⟩
    | .ok r => ⟨.ok r.output, false, r.ran⟩
  else ⟨.ok (unsupported_command_message original_command), false, false⟩

/-- The verb/resource dispatch of `execute_kubectl_command` (the body of its
try block after tokenization): `some` when a handler is selected. -/
def routeVerb (api : K8sApi) (env : K8sEnv) (verb resource : List Char)
    (original_command fmt : List Char) : Option ExecResult :=
  if verb == toCL "get" then
    if resource == toCL "pods" || resource == toCL "pod" then
      some (match get_pods api.listNSPod api.listAllPod env.now env.dump env.iso
              original_command fmt with
        | .ok s => ⟨.ok s, true, false⟩
        | .error e =>
          ⟨.ok (toCL "Error executing kubectl command: " ++ e), false, false⟩)
    else if resource == toCL "services" || resource == toCL "svc"
        || resource == toCL "service" then
      some ⟨.ok (get_services api.listNSSvc api.listAllSvc env.dump env.iso
        original_command fmt), true, false⟩
    else if resource == toCL "deployments" || resource == toCL "deploy"
        || resource == toCL "deployment" then
      some ⟨.ok (get_deployments api.listNSDeploy api.listAllDeploy env.now
        env.dump env.iso original_command fmt), true, false⟩
    else if resource == toCL "namespaces" || resource == toCL "ns"
        || resource == toCL "namespace" then
      some ⟨.ok (get_namespaces api.listNs env.now env.dump env.iso fmt), true, false⟩
    else if resource == toCL "nodes" || resource == toCL "node" then
      some ⟨.ok (get_nodes api.listNodes env.now env.dump env.iso fmt), true, false⟩
    else none
  else if verb == toCL "describe" then
    if resource == toCL "pod" || resource == toCL "pods" then
      some ⟨.ok (describe_pod api.readPod api.listEvents env.showDT
        original_command fmt), true, false⟩
    else none
  else if verb == toCL "logs" then
    some (match get_logs api.readLog original_command fmt with
      | .ok s => ⟨.ok s, true, false⟩
      | .error e =>
        ⟨.ok (toCL "Error executing kubectl command: " ++ e), false, false⟩)
  else none

/-- `KubernetesService.execute_kubectl_command`. -/
def execute_kubectl_command (cfg : K8sCfg) (api : K8sApi) (env : K8sEnv)
    (runner : KubectlRunner) (command fmt : List Char) : ExecResult :=
  if !cfg.client_available then
    if cfg.enable_subprocess then
      match execute_kubectl_via_subprocess runner cfg.kubectl_path command fmt with
      | .error e => ⟨.error e, false, false⟩
      | .ok r => ⟨.ok r.output, false, r.ran⟩
    else ⟨.ok client_unavailable_message, false, false⟩
  else
    let original_command := pyStrip command
    let parts := pySplitWs (toLowerL (pyStrip command))
    match parts with
    | [] => ⟨.ok (toCL "Error: Empty command"), false, false⟩
    | p :: ps =>
      match dropKubectlTok (p :: ps) with
      | [] =>
        ⟨.ok (toCL "Error: No command specified after " ++ [aposC]
          ++ toCL "kubectl" ++ [aposC]), false, false⟩
      | verb :: rest =>
        let resource := rest.headD []
        match routeVerb api env verb resource original_command fmt with
        | some r => r
        | none => executeFallthrough cfg runner original_command fmt

/-!  app/services/chatgpt.py : ChatGPTService rate limiting.  The class-level
request counter is threaded explicitly; the outcome says whether the call
returned before attempting any HTTP request. -/

/-- What `ChatGPTService.get_response` does before (or instead of) its HTTP
retry loop. -/
inductive ChatOutcome where
  | configError : ChatOutcome
  | rateLimited : ChatOutcome
  | httpAttempt : ChatOutcome
deriving DecidableEq

/-- The advisory-throttle message. -/
def tooManyRequestsMsg : List Char :=
  toCL "I" ++ [aposC]
    ++ toCL "m getting too many requests right now. Please try again in a few moments."

/-- The counter update and early-return logic at the top of
`ChatGPTService.get_response`: missing key returns without touching the
counter; otherwise the counter is incremented, and above 45 it is lowered by
five (not below zero) and the call returns the throttle message without any
HTTP request. -/
def chatgpt_rate_gate (hasKey : Bool) (request_count : Int) : Int × ChatOutcome :=
  if !hasKey then (request_count, .configError)
  else
    let c := request_count + 1
    if c > 45 then (max 0 (c - 5), .rateLimited)
    else (c, .httpAttempt)

/-- The counter after n sequential configured calls starting from a fresh
process. -/
def chatCountAfter : Nat → Int
  | 0 => 0
  | n + 1 => (chatgpt_rate_gate true (chatCountAfter n)).1

/-!  app/services/command.py : CommandService. -/

/-- The canned help text. -/
def help_response : List Char :=
  toCL "\nAvailable commands:\n- help: Show this help message\n- ping: Check if the bot is online\n- status: Get system status\n- metric [query]: Execute a PromQL query against Prometheus (table format)\n- metric-text [query]: Execute a PromQL query against Prometheus (text format)\n- kubectl [command]: Execute a kubectl command against Kubernetes (table format)\n- kubectl-yaml [command]: Execute a kubectl command against Kubernetes (yaml format)\n- query [natural language]: Generate and execute PromQL or kubectl commands from natural language\n- query-text [natural language]: Same as query but with text formatting\n- any other text: Will be processed by ChatGPT and automatically routed to appropriate service\n"

/-- The canned ping text. -/
def ping_response : List Char :=
  toCL "Pong! I" ++ [aposC]
    ++ toCL "m online and ready to help with Prometheus and Kubernetes queries."

/-- The canned status text. -/
def status_response : List Char :=
  toCL "All systems operational. Prometheus and Kubernetes integrations ready."

/-- `CommandService.process_command`: prefix-matched canned commands. -/
def process_command (command : List Char) : Option (List Char) :=
  let clean_command := pyStrip command
  if startsWithL (toCL "help") clean_command then some help_response
  else if startsWithL (toCL "ping") clean_command then some ping_response
  else if startsWithL (toCL "status") clean_command then some status_response
  else none

/-!  app/handlers/webhook.py : the dispatcher.  The synchronous return value
is the webhook response; the scheduled background task (if any) is returned
as data. -/

/-- The synchronous webhook reply (`MattermostResponse`; the schema default
for the response type is in_channel). -/
structure MattermostResponse where
  text : List Char
  response_type : List Char
deriving DecidableEq

/-- A background task spawned with `asyncio.create_task`, with its
arguments. -/
inductive BgTask where
  | prometheusQuery : List Char → List Char → BgTask
  | kubernetesCmd : List Char → List Char → BgTask
  | naturalQuery : List Char → List Char → BgTask
  | chatgptRoute : List Char → BgTask
deriving DecidableEq

/-- Shared ack suffix of the ephemeral processing messages. -/
def respondShortly : List Char :=
  toCL " I" ++ [aposC] ++ toCL "ll respond shortly."

/-- Ack for `metric `. -/
def ackMetricTable : List Char :=
  toCL "Processing your Prometheus query as a table..." ++ respondShortly

/-- Ack for `kubectl `. -/
def ackKubectlTable : List Char :=
  toCL "Processing your kubectl command as a table..." ++ respondShortly

/-- Ack for `metric-text `. -/
def ackMetricText : List Char :=
  toCL "Processing your Prometheus query with text formatting..." ++ respondShortly

/-- Ack for `kubectl-yaml `. -/
def ackKubectlYaml : List Char :=
  toCL "Processing your kubectl command with YAML formatting..." ++ respondShortly

/-- Ack for `query `. -/
def ackQueryTable : List Char :=
  toCL "Processing your natural language query..." ++ respondShortly

/-- Ack for `query-text `. -/
def ackQueryText : List Char :=
  toCL "Processing your natural language query with text formatting..." ++ respondShortly

/-- Ack for the ChatGPT fallback. -/
def ackChatgpt : List Char :=
  toCL "Processing your request..." ++ respondShortly

/-- `process_webhook_request`: the priority-ordered dispatch over the inbound
text.  Directive branches whose split yields no argument fall through, as in
the source, to the keyword-command check and then the ChatGPT fallback. -/
def process_webhook_request (text : List Char) :
    MattermostResponse × Option BgTask :=
  let lower := toLowerL text
  let tail_branch : MattermostResponse × Option BgTask :=
    match process_command text with
    | some response => (⟨response, toCL "in_channel"⟩, none)
    | none => (⟨ackChatgpt, toCL "ephemeral"⟩, some (.chatgptRoute text))
  if startsWithL (toCL "metric ") lower then
    match (splitFirstChar ' ' text).2 with
    | some rest =>
      (⟨ackMetricTable, toCL "ephemeral"⟩,
       some (.prometheusQuery (pyStrip rest) (toCL "table")))
    | none => tail_branch
  else if startsWithL (toCL "kubectl ") lower then
    match (splitFirstChar ' ' text).2 with
    | some rest =>
      (⟨ackKubectlTable, toCL "ephemeral"⟩,
       some (.kubernetesCmd (pyStrip rest) (toCL "table")))
    | none => tail_branch
  else if startsWithL (toCL "metric-text ") lower then
    match (splitFirstChar ' ' text).2 with
    | some rest =>
      (⟨ackMetricText, toCL "ephemeral"⟩,
       some (.prometheusQuery (pyStrip rest) (toCL "default")))
    | none => tail_branch
  else if startsWithL (toCL "kubectl-yaml ") lower then
    match (splitFirstChar ' ' text).2 with
    | some rest =>
      (⟨ackKubectlYaml, toCL "ephemeral"⟩,
       some (.kubernetesCmd (pyStrip rest) (toCL "yaml")))
    | none => tail_branch
  else if startsWithL (toCL "query ") lower then
    match (splitFirstChar ' ' text).2 with
    | some rest =>
      (⟨ackQueryTable, toCL "ephemeral"⟩,
       some (.naturalQuery (pyStrip rest) (toCL "table")))
    | none => tail_branch
  else if startsWithL (toCL "query-text ") lower then
    match (splitFirstChar ' ' text).2 with
    | some rest =>
      (⟨ackQueryText, toCL "ephemeral"⟩,
       some (.naturalQuery (pyStrip rest) (toCL "default")))
    | none => tail_branch
  else tail_branch

/-- The message `process_prometheus_query` posts on success, given the
Prometheus adapter output: the title line quotes the literal query, then the
adapter report follows. -/
def process_prometheus_query_post (user_name query execResult : List Char) :
    List Char :=
  toCL "@" ++ user_name ++ toCL " requested metrics: " ++ [dquoteC] ++ query
    ++ [dquoteC] ++ toCL "\n\n" ++ execResult

/-- The pod phases named by the Kubernetes API. -/
inductive K8sPhase where
  | Pending | Running | Succeeded | Failed | UnknownPhase

/-- The phase rendered as the API reports it. -/
def phaseChars : K8sPhase → List Char
  | .Pending => toCL "Pending"
  | .Running => toCL "Running"
  | .Succeeded => toCL "Succeeded"
  | .Failed => toCL "Failed"
  | .UnknownPhase => toCL "Unknown"

/-- A get-pods command carrying a not-equal phase field selector. -/
def c3_command (ph : K8sPhase) : List Char :=
  toCL "get pods --field-selector=status.phase!=" ++ phaseChars ph

/-- The spec fixture: five pods, three Running and two Pending. -/
def c3_fixture : PodList :=
  ⟨[⟨toCL "web-1", toCL "default", toCL "Running", 0⟩,
    ⟨toCL "web-2", toCL "default", toCL "Running", 0⟩,
    ⟨toCL "web-3", toCL "default", toCL "Running", 0⟩,
    ⟨toCL "job-1", toCL "default", toCL "Pending", 0⟩,
    ⟨toCL "job-2", toCL "default", toCL "Pending", 0⟩]⟩

/-- A namespaced list oracle answering the fixture. -/
def c3_listNS : List Char → Option (List Char) → Option (List Char) →
    Except (List Char) PodList := fun _ _ _ => .ok c3_fixture

/-- An all-namespaces list oracle (unused by the fixture command). -/
def c3_listAll : Option (List Char) → Option (List Char) →
    Except (List Char) PodList := fun _ _ => .ok ⟨[]⟩

/-- A trivial yaml renderer for witnesses. -/
def dump0 : YamlDump := fun _ => []

/-- A trivial isoformat renderer for witnesses. -/
def iso0 : IsoFmt := fun _ => []

/-- Characters with no special meaning to the shlex lexer or to the
whitespace split (no quotes, no escape, no vertical-tab or form-feed). -/
def shlexPlainChar (c : Char) : Bool :=
  !(c == aposC || c == dquoteC || c == bslashC || c == '\x0b' || c == '\x0c')

/-- The mutating verbs named by the spec. -/
def mutating_verb_strings : List (List Char) :=
  [toCL "delete", toCL "apply", toCL "create", toCL "patch",
   toCL "edit", toCL "exec", toCL "cp", toCL "auth"]

/-- The verb of a command as the dispatcher extracts it: first whitespace
token of the lowered, stripped command after dropping a kubectl program
token. -/
def kubectlVerbOf (command : List Char) : Option (List Char) :=
  (dropKubectlTok (pySplitWs (toLowerL (pyStrip command)))).head?

/-- A trivial subprocess runner for witnesses. -/
def runner0 : KubectlRunner := fun _ => RunResult.finished 0 [] []

/-- A trivial Kubernetes API for witnesses. -/
def api0 : K8sApi where
  listNSPod := fun _ _ _ => .ok ⟨[]⟩
  listAllPod := fun _ _ => .ok ⟨[]⟩
  listNSSvc := fun _ => .ok ⟨[]⟩
  listAllSvc := fun _ => .ok ⟨[]⟩
  listNSDeploy := fun _ => .ok ⟨[]⟩
  listAllDeploy := fun _ => .ok ⟨[]⟩
  listNs := fun _ => .ok ⟨[]⟩
  listNodes := fun _ => .ok ⟨[]⟩
  readPod := fun _ _ => .error ⟨404, toCL "NotFound"⟩
  listEvents := fun _ _ => .ok []
  readLog := fun _ _ _ => .ok []

/-- A trivial rendering environment for witnesses. -/
def env0 : K8sEnv := ⟨0, dump0, iso0, fun _ => []⟩

/-- A configuration with client and subprocess enabled, for witnesses. -/
def cfg0 : K8sCfg := ⟨true, true, toCL "kubectl"⟩

/-- The vector fixture of the spec: sample values 0.0000001 and 123456. -/
def c5fixture : List MetricEntry :=
  [⟨[(toCL "instance", toCL "a")], some (0, .num (Rat.divInt 1 10000000))⟩,
   ⟨[(toCL "instance", toCL "b")], some (0, .num (Rat.divInt 123456 1))⟩]

/-- The six directive prefixes checked before the keyword commands. -/
def directive_prefixes : List (List Char) :=
  [toCL "metric ", toCL "kubectl ", toCL "metric-text ", toCL "kubectl-yaml ",
   toCL "query ", toCL "query-text "]

/-!  General lemmas about the string utilities. -/

/-- A list is a prefix of itself followed by anything. -/
theorem startsWithL_self_append (p t : List Char) : startsWithL p (p ++ t) = true := by
  induction p with
  | nil => rfl
  | cons c cs ih => simp [startsWithL, ih]

/-- A prefix occurrence is an occurrence. -/
theorem containsL_of_startsWith {pat s : List Char} (h : startsWithL pat s = true) :
    containsL pat s = true := by
  cases s with
  | nil => simpa [containsL] using h
  | cons c cs => simp [containsL, h]

/-- Occurrences survive prepending text. -/
theorem containsL_append_left (a : List Char) {pat t : List Char}
    (h : containsL pat t = true) : containsL pat (a ++ t) = true := by
  induction a with
  | nil => simpa using h
  | cons c cs ih =>
    simp only [List.cons_append, containsL, List.tail_cons, Bool.or_eq_true]
    exact Or.inr ih

/-- A list occurs in any text that embeds it. -/
theorem containsL_append_mid (a q b : List Char) :
    containsL q (a ++ (q ++ b)) = true :=
  containsL_append_left a (containsL_of_startsWith (startsWithL_self_append q b))

/-!  Claim C1.  The spec mandates Unknown on equal nonzero signature scores,
both for untagged code blocks and for the full text.  The source only does
this at the full-text stage: inside an untagged code block the PromQL side
is checked first and wins ties. -/

/-- Claim C1, counterexample: over the untagged code block `sum( pods` the
two signature sets score one match each (equal and nonzero), yet the
Discriminator classifies the text as PromQL rather than Unknown. -/
theorem C1_counterexample :
    countMatches promql_patterns (toLowerL (pyStrip (toCL "sum( pods"))) = 1
  ∧ countMatches k8s_patterns (toLowerL (pyStrip (toCL "sum( pods"))) = 1
  ∧ detect_script_type (toCL "```\nsum( pods\n```")
      = (toCL "promql", toCL "sum( pods") := by
  refine ⟨by decide, by decide, by decide⟩

/-- Claim C1, amended: at the full-text scoring stage — that is, when no
code block has produced a classification and the filesystem special case
does not fire — equal signature scores (nonzero or not) yield Unknown with
the stripped text as fragment. -/
theorem C1_full_text_tie_unknown (text : List Char)
    (hblocks : classifyBlocks (findCodeBlocks text) = none)
    (hfs : fs_keyword_check text (pyStrip (toLowerL text)) = none)
    (htie : countMatches promql_patterns (pyStrip (toLowerL text))
          = countMatches k8s_patterns (pyStrip (toLowerL text))) :
    detect_script_type text = (toCL "unknown", pyStrip text) := by
  simp only [detect_script_type, hblocks, hfs, htie]
  simp

/-- Witness for the amended C1: `sum( pods` has no code block, scores one on
each side, and is classified Unknown. -/
theorem C1_witness :
    detect_script_type (toCL "sum( pods")
      = (toCL "unknown", pyStrip (toCL "sum( pods")) :=
  C1_full_text_tie_unknown (toCL "sum( pods") (by decide) (by decide) (by decide)

/-!  Claim C2.  A promql-tagged fenced block forces MetricsQuery only when no
earlier code block already decides the classification: the block loop takes
blocks in order of occurrence and returns at the first decisive one. -/

/-- The fence token spelled as characters. -/
theorem fenceTok_eq : fenceTok = [backqC, backqC, backqC] := by decide

/-- Boolean character disequality is symmetric. -/
theorem beqCharSymm {a b : Char} (h : (a == b) = false) : (b == a) = false := by
  simp only [beq_eq_false_iff_ne] at h ⊢
  exact h.symm

/-- Text starting with a non-backtick character does not start a fence. -/
theorem startsWith_fence_false {c : Char} (h : (c == backqC) = false)
    (rest : List Char) : startsWithL fenceTok (c :: rest) = false := by
  have h' : (backqC == c) = false := beqCharSymm h
  show (backqC == c && startsWithL [backqC, backqC] rest) = false
  rw [h', Bool.false_and]

/-- One unfolding step of the lazy block-body scan. -/
theorem lazyCaptureGo_cons (c : Char) (t acc : List Char) :
    lazyCaptureGo (c :: t) acc =
      (if startsWithL fenceTok (c :: t) then some (acc.reverse, (c :: t).drop 3)
       else if c == '\n' && startsWithL fenceTok t then some (acc.reverse, t.drop 3)
       else lazyCaptureGo t (c :: acc)) := rfl

/-- The lazy scan through a backtick-free body stops exactly at the closing
fence, capturing the body. -/
theorem lazyCaptureGo_through (b p₂ acc : List Char)
    (hb : containsC backqC b = false) :
    lazyCaptureGo (b ++ (toCL "\n```" ++ p₂)) acc = some (acc.reverse ++ b, p₂) := by
  induction b generalizing acc with
  | nil =>
    show lazyCaptureGo ('\n' :: (fenceTok ++ p₂)) acc = some (acc.reverse ++ [], p₂)
    rw [lazyCaptureGo_cons]
    rw [startsWith_fence_false (by decide), startsWithL_self_append]
    simp [fenceTok_eq]
  | cons c b' ih =>
    have hc : (c == backqC) = false := by
      simp only [containsC, List.any_cons, Bool.or_eq_false_iff] at hb
      exact hb.1
    have hb' : containsC backqC b' = false := by
      simp only [containsC, List.any_cons, Bool.or_eq_false_iff] at hb
      exact hb.2
    have h2 : ((c == '\n') && startsWithL fenceTok (b' ++ (toCL "\n```" ++ p₂))) = false := by
      cases hcn : c == '\n' with
      | false => simp
      | true =>
        cases b' with
        | nil =>
          show (_ && startsWithL fenceTok ('\n' :: (fenceTok ++ p₂))) = false
          rw [startsWith_fence_false (by decide)]
          simp
        | cons d b'' =>
          have hd : (d == backqC) = false := by
            simp only [containsC, List.any_cons, Bool.or_eq_false_iff] at hb'
            exact hb'.1
          rw [List.cons_append, startsWith_fence_false hd]
          simp
    rw [List.cons_append, lazyCaptureGo_cons, startsWith_fence_false hc, h2]
    simp only [Bool.false_eq_true, if_false]
    rw [ih (c :: acc) hb']
    simp

/-- One unfolding step of the fenced-block scan. -/
theorem findBlocksFuel_succ (f : Nat) (s : List Char) :
    findBlocksFuel (f + 1) s =
      (if startsWithL fenceTok s then
        match lazyCapture (tryHint (s.drop 3)).2 with
        | some capAfter => ((tryHint (s.drop 3)).1, capAfter.1) :: findBlocksFuel f capAfter.2
        | none => match s with | [] => [] | _ :: t => findBlocksFuel f t
      else match s with | [] => [] | _ :: t => findBlocksFuel f t) := rfl

/-- Scanning passes over a backtick-free prefix without finding a block. -/
theorem findBlocksFuel_skip (p₁ : List Char) (f : Nat) (rest : List Char)
    (hp : containsC backqC p₁ = false) :
    findBlocksFuel (p₁.length + f) (p₁ ++ rest) = findBlocksFuel f rest := by
  induction p₁ with
  | nil => simp
  | cons c p' ih =>
    have hc : (c == backqC) = false := by
      simp only [containsC, List.any_cons, Bool.or_eq_false_iff] at hp
      exact hp.1
    have hp' : containsC backqC p' = false := by
      simp only [containsC, List.any_cons, Bool.or_eq_false_iff] at hp
      exact hp.2
    have hlen : (c :: p').length + f = (p'.length + f) + 1 := by
      simp [Nat.succ_add]
    rw [hlen, List.cons_append, findBlocksFuel_succ, startsWith_fence_false hc]
    simp only [Bool.false_eq_true, if_false]
    exact ih hp'

/-- A promql-tagged fence with backtick-free body is recognized as the first
block, capturing exactly the body. -/
theorem findBlocksFuel_promql_head (f : Nat) (b p₂ : List Char)
    (hb : containsC backqC b = false) :
    findBlocksFuel (f + 1) (toCL "```promql\n" ++ (b ++ (toCL "\n```" ++ p₂)))
      = (some (toCL "promql"), b) :: findBlocksFuel f p₂ := by
  have hsw : startsWithL fenceTok (toCL "```promql\n" ++ (b ++ (toCL "\n```" ++ p₂))) = true := by
    have hd : toCL "```promql\n" = fenceTok ++ toCL "promql\n" := by decide
    rw [hd, List.append_assoc]
    exact startsWithL_self_append _ _
  have hdrop : (toCL "```promql\n" ++ (b ++ (toCL "\n```" ++ p₂))).drop 3
      = toCL "promql\n" ++ (b ++ (toCL "\n```" ++ p₂)) := rfl
  have hcap : lazyCapture (tryHint ((toCL "```promql\n" ++ (b ++ (toCL "\n```" ++ p₂))).drop 3)).2
      = some (b, p₂) := by
    rw [hdrop]
    have h1 : (tryHint (toCL "promql\n" ++ (b ++ (toCL "\n```" ++ p₂)))).2
        = toCL "\n" ++ (b ++ (toCL "\n```" ++ p₂)) := rfl
    rw [h1]
    have h2 : lazyCapture (toCL "\n" ++ (b ++ (toCL "\n```" ++ p₂)))
        = lazyCaptureGo (b ++ (toCL "\n```" ++ p₂)) [] := rfl
    rw [h2, lazyCaptureGo_through b p₂ [] hb]
    simp
  rw [findBlocksFuel_succ, hsw]
  simp only [if_true]
  rw [hcap]
  have hhint : (tryHint ((toCL "```promql\n" ++ (b ++ (toCL "\n```" ++ p₂))).drop 3)).1
      = some (toCL "promql") := rfl
  rw [hhint]

/-- Claim C2, counterexample: this text contains a promql-tagged fenced block,
but an earlier bash-tagged block decides first, so the Discriminator returns
the cluster-command classification, not MetricsQuery. -/
theorem C2_counterexample :
    containsL (toCL "```promql\nup\n```")
        (toCL "```bash\nkubectl get pods\n```\n```promql\nup\n```") = true
  ∧ detect_script_type (toCL "```bash\nkubectl get pods\n```\n```promql\nup\n```")
      = (toCL "kubernetes", toCL "kubectl get pods") :=
  ⟨by decide, by decide⟩

/-- Claim C2, amended: when the promql-tagged block is the first fenced block
of the text (prose before it has no backtick) and its body is backtick-free,
the Discriminator returns MetricsQuery with the trimmed body as fragment,
whatever follows the block. -/
theorem C2_first_promql_block (p₁ b p₂ : List Char)
    (hp : containsC backqC p₁ = false) (hb : containsC backqC b = false) :
    detect_script_type (p₁ ++ (toCL "```promql\n" ++ (b ++ (toCL "\n```" ++ p₂))))
      = (toCL "promql", pyStrip b) := by
  have l1 : (toCL "```promql\n").length = 10 := by decide
  have l2 : (toCL "\n```").length = 4 := by decide
  have hlen : (p₁ ++ (toCL "```promql\n" ++ (b ++ (toCL "\n```" ++ p₂)))).length
      = p₁.length + ((13 + b.length + p₂.length) + 1) := by
    simp only [List.length_append, l1, l2]
    omega
  have hblocks : classifyBlocks
      (findCodeBlocks (p₁ ++ (toCL "```promql\n" ++ (b ++ (toCL "\n```" ++ p₂)))))
      = some (toCL "promql", pyStrip b) := by
    unfold findCodeBlocks
    rw [hlen, findBlocksFuel_skip p₁ _ _ hp, findBlocksFuel_promql_head _ b p₂ hb]
    simp [classifyBlocks, classifyBlock,
      (by decide : toLowerL (toCL "promql") = toCL "promql")]
  simp only [detect_script_type, hblocks]

/-- Witness for the amended C2 at a concrete prose/body/suffix split. -/
theorem C2_witness :
    detect_script_type (toCL "Here: "
        ++ (toCL "```promql\n" ++ (toCL "up" ++ (toCL "\n```" ++ toCL " done"))))
      = (toCL "promql", pyStrip (toCL "up")) :=
  C2_first_promql_block (toCL "Here: ") (toCL "up") (toCL " done")
    (by decide) (by decide)

/-!  Claim C3.  A `status.phase!=<Phase>` field selector on get-pods is
diverted to a client-side filter: the server-side list request is made with
no field selector, the exclusion is applied in process, and a note is
prepended to the output. -/

/-- `get_pods` under the parse facts of a single-namespace command whose
field selector was diverted to the client side: the list oracle is called
with no field selector and the note is prepended to the formatted filtered
set. -/
theorem get_pods_parsed
    (listNS : List Char → Option (List Char) → Option (List Char) → Except (List Char) PodList)
    (listAll : Option (List Char) → Option (List Char) → Except (List Char) PodList)
    (now : Int) (dump : YamlDump) (iso : IsoFmt) (cmd fmt v : List Char) (pods : PodList)
    (h1 : containsL (toCL "--all-namespaces") cmd = false)
    (h2 : parseNamespaceArg false cmd = toCL "default")
    (h3 : parseLabelSelector cmd = none)
    (h4 : parseFieldSelector cmd = .ok (none, some v))
    (h5 : listNS (toCL "default") none none = .ok pods) :
    get_pods listNS listAll now dump iso cmd fmt
      = .ok (clientFilterNote v (clientSideFilterPods v pods.items).length
             ++ (if fmt == toCL "table" then
                   format_pods_as_table now ⟨clientSideFilterPods v pods.items⟩
                 else format_pods_as_yaml dump iso ⟨clientSideFilterPods v pods.items⟩)) := by
  simp only [get_pods, h1, h2, h3, h4, h5]
  simp

/-- Every branch of the client-side cascade filters out exactly the pods
with the excluded phase. -/
theorem clientSideFilterPods_phase (ph : K8sPhase) (items : List PodItem) :
    clientSideFilterPods (toCL "status.phase!=" ++ phaseChars ph) items
      = items.filter (fun p => !(p.phase == phaseChars ph)) := by
  cases ph with
  | Running =>
    simp only [phaseChars, clientSideFilterPods]
    rw [if_pos (by decide)]
  | Succeeded =>
    simp only [phaseChars, clientSideFilterPods]
    rw [if_neg (by decide), if_pos (by decide)]
  | Failed =>
    simp only [phaseChars, clientSideFilterPods]
    rw [if_neg (by decide), if_neg (by decide), if_pos (by decide)]
  | Pending =>
    simp only [phaseChars, clientSideFilterPods]
    rw [if_neg (by decide), if_neg (by decide), if_neg (by decide),
      if_pos (by decide),
      (by decide : (splitOnSubL (toCL "status.phase!=")
        (toCL "status.phase!=" ++ toCL "Pending")).getD 1 [] = toCL "Pending")]
  | UnknownPhase =>
    simp only [phaseChars, clientSideFilterPods]
    rw [if_neg (by decide), if_neg (by decide), if_neg (by decide),
      if_pos (by decide),
      (by decide : (splitOnSubL (toCL "status.phase!=")
        (toCL "status.phase!=" ++ toCL "Unknown")).getD 1 [] = toCL "Unknown")]

/-- Claim C3: for a `status.phase!=<Phase>` field selector in a get-pods
command, the parser drops the server-side field selector and records the
client-side filter; the Cluster Adapter lists with no field selector, keeps
exactly the pods whose phase differs, and prepends the client-side-filter
note. -/
theorem C3_client_side_phase_filter
    (listNS : List Char → Option (List Char) → Option (List Char) → Except (List Char) PodList)
    (listAll : Option (List Char) → Option (List Char) → Except (List Char) PodList)
    (now : Int) (dump : YamlDump) (iso : IsoFmt) (ph : K8sPhase) (fmt : List Char)
    (pods : PodList)
    (h5 : listNS (toCL "default") none none = .ok pods) :
    parseFieldSelector (c3_command ph)
      = .ok (none, some (toCL "status.phase!=" ++ phaseChars ph))
  ∧ get_pods listNS listAll now dump iso (c3_command ph) fmt
      = .ok (clientFilterNote (toCL "status.phase!=" ++ phaseChars ph)
               (pods.items.filter (fun p => !(p.phase == phaseChars ph))).length
             ++ (if fmt == toCL "table" then
                   format_pods_as_table now
                     ⟨pods.items.filter (fun p => !(p.phase == phaseChars ph))⟩
                 else format_pods_as_yaml dump iso
                     ⟨pods.items.filter (fun p => !(p.phase == phaseChars ph))⟩)) := by
  have h4 : parseFieldSelector (c3_command ph)
      = .ok (none, some (toCL "status.phase!=" ++ phaseChars ph)) := by
    cases ph <;> rfl
  refine ⟨h4, ?_⟩
  rw [get_pods_parsed listNS listAll now dump iso (c3_command ph) fmt
    (toCL "status.phase!=" ++ phaseChars ph) pods ?_ ?_ ?_ h4 h5,
    clientSideFilterPods_phase]
  · cases ph <;> exact (by decide)
  · cases ph <;> exact (by decide)
  · cases ph <;> exact (by decide)

/-- Witness for C3 on the spec fixture: exactly the two Pending pods remain
and the note is prepended. -/
theorem C3_witness :
    (c3_fixture.items.filter
        (fun p => !(p.phase == phaseChars K8sPhase.Running))).length = 2
  ∧ (parseFieldSelector (c3_command K8sPhase.Running)
       = .ok (none, some (toCL "status.phase!=" ++ phaseChars K8sPhase.Running))
     ∧ get_pods c3_listNS c3_listAll 1000 dump0 iso0 (c3_command K8sPhase.Running)
         (toCL "table")
       = .ok (clientFilterNote (toCL "status.phase!=" ++ phaseChars K8sPhase.Running)
                (c3_fixture.items.filter
                  (fun p => !(p.phase == phaseChars K8sPhase.Running))).length
              ++ (if (toCL "table") == toCL "table" then
                    format_pods_as_table 1000
                      ⟨c3_fixture.items.filter
                        (fun p => !(p.phase == phaseChars K8sPhase.Running))⟩
                  else format_pods_as_yaml dump0 iso0
                      ⟨c3_fixture.items.filter
                        (fun p => !(p.phase == phaseChars K8sPhase.Running))⟩))) :=
  ⟨by decide,
   C3_client_side_phase_filter c3_listNS c3_listAll 1000 dump0 iso0
     K8sPhase.Running (toCL "table") c3_fixture rfl⟩

/-!  Claim C4.  The security gate of the Cluster Adapter: mutating commands
never reach a Kubernetes API handler, the subprocess path refuses to run
whenever any of the allow-list, mutating-verb or metacharacter checks fails,
and the rejection is the security message. -/

/-- Python whitespace is shlex whitespace plus vertical tab and form feed. -/
theorem isPySpace_decomp (c : Char) :
    isPySpace c = (shlexIsWs c || c == '\x0b' || c == '\x0c') := by
  simp [isPySpace, shlexIsWs, Bool.or_assoc, Bool.or_comm, Bool.or_left_comm]

/-- One unfolding step of the shlex lexer in the normal state. -/
theorem shlexGo_cons_normal (c : Char) (cs : List Char) (cur : Option (List Char)) :
    shlexGo (c :: cs) .normal cur =
      (if shlexIsWs c then
        match cur with
        | none => shlexGo cs .normal none
        | some t => (shlexGo cs .normal none).map (fun ts => t.reverse :: ts)
      else if c == aposC then shlexGo cs .single (some (cur.getD []))
      else if c == dquoteC then shlexGo cs .double (some (cur.getD []))
      else if c == bslashC then
        match cs with
        | [] => .error (toCL "No escaped character")
        | d :: ds => shlexGo ds .normal (some (d :: cur.getD []))
      else shlexGo cs .normal (some (c :: cur.getD []))) := by
  rw [shlexGo.eq_def]

/-- One unfolding step of the whitespace tokenizer. -/
theorem pySplitWsGo_cons (c : Char) (cs acc : List Char) :
    pySplitWsGo (c :: cs) acc =
      (if isPySpace c then
        (if acc.isEmpty then pySplitWsGo cs [] else acc.reverse :: pySplitWsGo cs [])
      else pySplitWsGo cs (c :: acc)) := rfl

/-- On text free of quoting characters the shlex lexer agrees with the
whitespace split, in both lexer configurations. -/
theorem shlexGo_plain (s : List Char) (hs : ∀ c ∈ s, shlexPlainChar c = true) :
    shlexGo s .normal none = .ok (pySplitWsGo s [])
  ∧ ∀ t, t ≠ [] → shlexGo s .normal (some t) = .ok (pySplitWsGo s t) := by
  induction s with
  | nil =>
    refine ⟨rfl, fun t ht => ?_⟩
    simp [shlexGo, pySplitWsGo, ht]
  | cons c cs ih =>
    have hc : shlexPlainChar c = true := hs c (List.mem_cons_self c cs)
    have hcs : ∀ x ∈ cs, shlexPlainChar x = true :=
      fun x hx => hs x (List.mem_cons_of_mem c hx)
    obtain ⟨ih1, ih2⟩ := ih hcs
    simp only [shlexPlainChar, Bool.not_eq_true', Bool.or_eq_false_iff] at hc
    obtain ⟨⟨⟨⟨hapos, hdq⟩, hbs⟩, hvt⟩, hff⟩ := hc
    by_cases hws : shlexIsWs c = true
    · have hpws : isPySpace c = true := by
        rw [isPySpace_decomp, hws]
        simp
      constructor
      · rw [shlexGo_cons_normal, pySplitWsGo_cons, if_pos hws, if_pos hpws]
        simpa using ih1
      · intro t ht
        rw [shlexGo_cons_normal, pySplitWsGo_cons, if_pos hws, if_pos hpws,
          if_neg (by simpa using ht), ih1]
        rfl
    · have hws' : shlexIsWs c = false := by simpa using hws
      have hpws : isPySpace c = false := by
        rw [isPySpace_decomp, hws', hvt, hff]
        simp
      constructor
      · rw [shlexGo_cons_normal, pySplitWsGo_cons]
        simp only [hws', hpws, hapos, hdq, hbs, Bool.false_eq_true, if_false]
        exact ih2 [c] (by simp)
      · intro t ht
        rw [shlexGo_cons_normal, pySplitWsGo_cons]
        simp only [hws', hpws, hapos, hdq, hbs, Bool.false_eq_true, if_false]
        exact ih2 (c :: t) (by simp)

/-- `shlex.split` on quoting-free text is the whitespace split. -/
theorem shlexSplit_plain (s : List Char) (hs : ∀ c ∈ s, shlexPlainChar c = true) :
    shlexSplit s = .ok (pySplitWs s) :=
  (shlexGo_plain s hs).1

/-- A command containing a shell metacharacter never passes the safety
check. -/
theorem is_safe_reject_of_metachar (command : List Char)
    (h : shell_chars.any (fun c => containsC c command) = true) :
    is_safe_kubectl_command command ≠ .ok true := by
  intro hok
  simp only [is_safe_kubectl_command] at hok
  rcases hs : shlexSplit (toLowerL (pyStrip command)) with e | parts0
  · simp only [hs] at hok
    exact absurd hok (by simp)
  · simp only [hs] at hok
    rcases hp : dropKubectlTok parts0 with _ | ⟨mv, rest⟩ <;> rw [hp] at hok
    · exact absurd hok (by simp)
    · split_ifs at hok <;> simp_all

/-- A command failing the safety check gets the security rejection and the
subprocess is not run. -/
theorem subproc_rejects (runner : KubectlRunner) (kp command fmt : List Char)
    (h : is_safe_kubectl_command command = .ok false) :
    execute_kubectl_via_subprocess runner kp command fmt
      = .ok ⟨securityRejectionMsg command, false⟩ := by
  unfold execute_kubectl_via_subprocess
  rw [h]

/-- Whenever the safety check does not succeed, any produced subprocess-path
output reports that the subprocess was not run. -/
theorem subproc_not_ran (runner : KubectlRunner) (kp command fmt : List Char)
    (h : is_safe_kubectl_command command ≠ .ok true) (r : SubprocResult)
    (hr : execute_kubectl_via_subprocess runner kp command fmt = .ok r) :
    r.ran = false := by
  unfold execute_kubectl_via_subprocess at hr
  cases hs : is_safe_kubectl_command command with
  | error e => rw [hs] at hr; exact absurd hr (by simp)
  | ok b =>
    cases b with
    | false =>
      rw [hs] at hr
      simp only [Except.ok.injEq] at hr
      rw [← hr]
    | true => exact absurd hs h

/-- A quoting-free command whose verb is mutating fails the safety check on
the allow-list. -/
theorem is_safe_mutating_plain (cmd v : List Char)
    (hplain : ∀ c ∈ toLowerL (pyStrip cmd), shlexPlainChar c = true)
    (hv : kubectlVerbOf cmd = some v) (hm : v ∈ mutating_verb_strings) :
    is_safe_kubectl_command cmd = .ok false := by
  have hall : (allowed_kubectl_commands.any (fun a => a == v)) = false := by
    fin_cases hm <;> decide
  simp only [is_safe_kubectl_command]
  rw [shlexSplit_plain _ hplain]
  simp only [kubectlVerbOf] at hv
  rcases hd : dropKubectlTok (pySplitWs (toLowerL (pyStrip cmd))) with _ | ⟨mv, rest⟩
  · rw [hd] at hv
    simp at hv
  · rw [hd] at hv
    simp only [List.head?_cons, Option.some.injEq] at hv
    subst hv
    simp only [hd, hall]
    simp

/-- `pyStrip` via drop-while on both ends. -/
theorem pyStrip_eq_rdrop (s : List Char) :
    pyStrip s = List.rdropWhile isPySpace (List.dropWhile isPySpace s) := rfl

/-- Stripping is idempotent. -/
theorem pyStrip_idem (s : List Char) : pyStrip (pyStrip s) = pyStrip s := by
  rw [pyStrip_eq_rdrop, pyStrip_eq_rdrop]
  have ht : List.dropWhile isPySpace (List.dropWhile isPySpace s)
      = List.dropWhile isPySpace s := List.dropWhile_idempotent _ _
  have hpre : List.rdropWhile isPySpace (List.dropWhile isPySpace s)
      <+: List.dropWhile isPySpace s := List.rdropWhile_prefix _ _
  have hdw : List.dropWhile isPySpace
      (List.rdropWhile isPySpace (List.dropWhile isPySpace s))
      = List.rdropWhile isPySpace (List.dropWhile isPySpace s) := by
    rcases hd : List.rdropWhile isPySpace (List.dropWhile isPySpace s) with _ | ⟨c, pre⟩
    · rfl
    · obtain ⟨r, hr⟩ := hpre
      rw [hd] at hr
      have hfc : isPySpace c = false := by
        by_contra hcc
        have hcc' : isPySpace c = true := by simpa using hcc
        have ht' := ht
        rw [← hr] at ht'
        simp only [List.cons_append, List.dropWhile_cons, hcc', if_true] at ht'
        have hsub : List.Sublist (List.dropWhile isPySpace (pre ++ r)) (pre ++ r) :=
          List.dropWhile_sublist _
        have hle := hsub.length_le
        have hlen := congrArg List.length ht'
        simp only [List.length_cons, List.length_append] at hlen hle
        omega
      simp [List.dropWhile_cons, hfc]
  rw [hdw, List.rdropWhile_idempotent]

/-- A mutating verb selects no API handler in the dispatch table. -/
theorem routeVerb_mutating (api : K8sApi) (env : K8sEnv) (v resource oc fmt : List Char)
    (hm : v ∈ mutating_verb_strings) :
    routeVerb api env v resource oc fmt = none := by
  fin_cases hm <;>
    (unfold routeVerb
     rw [if_neg (by decide), if_neg (by decide), if_neg (by decide)])

/-- The dispatch fall-through never touches the Kubernetes API. -/
theorem executeFallthrough_apiCalled (cfg : K8sCfg) (runner : KubectlRunner)
    (oc fmt : List Char) : (executeFallthrough cfg runner oc fmt).apiCalled = false := by
  unfold executeFallthrough
  split
  · split <;> rfl
  · rfl

/-- The dispatch fall-through runs no subprocess when the safety check does
not succeed on the routed command. -/
theorem executeFallthrough_subprocRan (cfg : K8sCfg) (runner : KubectlRunner)
    (oc fmt : List Char) (h : is_safe_kubectl_command oc ≠ .ok true) :
    (executeFallthrough cfg runner oc fmt).subprocRan = false := by
  unfold executeFallthrough
  split
  · split
    · rfl
    · next r hr => simpa using subproc_not_ran runner cfg.kubectl_path oc fmt h r hr
  · rfl

/-- A command with a mutating verb is dispatched to no API handler. -/
theorem execute_mutating_no_api (cfg : K8sCfg) (api : K8sApi) (env : K8sEnv)
    (runner : KubectlRunner) (cmd fmt v : List Char)
    (hv : kubectlVerbOf cmd = some v) (hm : v ∈ mutating_verb_strings) :
    (execute_kubectl_command cfg api env runner cmd fmt).apiCalled = false := by
  unfold execute_kubectl_command
  cases hb : cfg.client_available
  · simp only [Bool.not_false, if_true]
    split
    · split <;> rfl
    · rfl
  · simp only [Bool.not_true, Bool.false_eq_true, if_false]
    simp only [kubectlVerbOf] at hv
    rcases hps : pySplitWs (toLowerL (pyStrip cmd)) with _ | ⟨p, ps⟩
    · rw [hps] at hv
    · rw [hps] at hv
      rcases hd : dropKubectlTok (p :: ps) with _ | ⟨verb, rest⟩
      · rw [hd] at hv
        simp at hv
      · rw [hd] at hv
        simp only [List.head?_cons, Option.some.injEq] at hv
        subst hv
        simp only [hd]
        rw [routeVerb_mutating api env verb (rest.headD []) (pyStrip cmd) fmt hm]
        exact executeFallthrough_apiCalled _ _ _ _

/-- A quoting-free command with a mutating verb triggers neither an API call
nor a subprocess run, in any configuration. -/
theorem execute_mutating_flags (cfg : K8sCfg) (api : K8sApi) (env : K8sEnv)
    (runner : KubectlRunner) (cmd fmt v : List Char)
    (hv : kubectlVerbOf cmd = some v) (hm : v ∈ mutating_verb_strings)
    (hplain : ∀ c ∈ toLowerL (pyStrip cmd), shlexPlainChar c = true) :
    (execute_kubectl_command cfg api env runner cmd fmt).apiCalled = false
  ∧ (execute_kubectl_command cfg api env runner cmd fmt).subprocRan = false := by
  have hsafe : is_safe_kubectl_command cmd = .ok false :=
    is_safe_mutating_plain cmd v hplain hv hm
  have hsafe2 : is_safe_kubectl_command (pyStrip cmd) = .ok false := by
    have h2 : kubectlVerbOf (pyStrip cmd) = some v := by
      simpa [kubectlVerbOf, pyStrip_idem] using hv
    have hp2 : ∀ c ∈ toLowerL (pyStrip (pyStrip cmd)), shlexPlainChar c = true := by
      rw [pyStrip_idem]
      exact hplain
    exact is_safe_mutating_plain (pyStrip cmd) v hp2 h2 hm
  unfold execute_kubectl_command
  cases hb : cfg.client_available
  · simp only [Bool.not_false, if_true]
    split
    · rw [subproc_rejects runner cfg.kubectl_path cmd fmt hsafe]
      exact ⟨rfl, rfl⟩
    · exact ⟨rfl, rfl⟩
  · simp only [Bool.not_true, Bool.false_eq_true, if_false]
    simp only [kubectlVerbOf] at hv
    rcases hps : pySplitWs (toLowerL (pyStrip cmd)) with _ | ⟨p, ps⟩
    · rw [hps] at hv
      simp [dropKubectlTok] at hv
    · rw [hps] at hv
      rcases hd : dropKubectlTok (p :: ps) with _ | ⟨verb, rest⟩
      · rw [hd] at hv
        simp at hv
      · rw [hd] at hv
        simp only [List.head?_cons, Option.some.injEq] at hv
        subst hv
        simp only [hd]
        rw [routeVerb_mutating api env verb (rest.headD []) (pyStrip cmd) fmt hm]
        refine ⟨executeFallthrough_apiCalled _ _ _ _, ?_⟩
        apply executeFallthrough_subprocRan
        rw [hsafe2]
        simp

/-- Counterexample to C4: a shell metacharacter does not prevent backend
calls.  The command kubectl get pods ; ls contains a semicolon, yet with the
client available the dispatcher extracts verb get and resource pods and
routes it to the get-pods API handler: the safety check guards only the
subprocess path, which this command never reaches. -/
theorem C4_counterexample :
    shell_chars.any (fun c => containsC c (toCL "kubectl get pods ; ls")) = true
  ∧ (execute_kubectl_command cfg0 api0 env0 runner0
      (toCL "kubectl get pods ; ls") (toCL "table")).apiCalled = true := by
  refine ⟨by decide, by decide⟩

/-- Claim C4 (amended): the input kubectl delete pod x triggers no backend
call and no subprocess in any configuration and for every output format; any
command whose dispatcher verb is mutating reaches no API handler; a
quoting-free mutating command also never runs the subprocess; a command with
a shell metacharacter never passes the subprocess safety check (though it may
still be routed to an API handler); and a command failing the safety check
gets the security-rejection message with no subprocess run. -/
theorem C4_security_gate :
    (∀ (cfg : K8sCfg) (api : K8sApi) (env : K8sEnv) (runner : KubectlRunner)
        (fmt : List Char),
      (execute_kubectl_command cfg api env runner
          (toCL "kubectl delete pod x") fmt).apiCalled = false
      ∧ (execute_kubectl_command cfg api env runner
          (toCL "kubectl delete pod x") fmt).subprocRan = false)
  ∧ (∀ (cfg : K8sCfg) (api : K8sApi) (env : K8sEnv) (runner : KubectlRunner)
        (cmd fmt v : List Char),
      kubectlVerbOf cmd = some v → v ∈ mutating_verb_strings →
      (execute_kubectl_command cfg api env runner cmd fmt).apiCalled = false)
  ∧ (∀ (cfg : K8sCfg) (api : K8sApi) (env : K8sEnv) (runner : KubectlRunner)
        (cmd fmt v : List Char),
      kubectlVerbOf cmd = some v → v ∈ mutating_verb_strings →
      (∀ c ∈ toLowerL (pyStrip cmd), shlexPlainChar c = true) →
      (execute_kubectl_command cfg api env runner cmd fmt).subprocRan = false)
  ∧ (∀ cmd : List Char, shell_chars.any (fun c => containsC c cmd) = true →
      is_safe_kubectl_command cmd ≠ .ok true)
  ∧ (∀ (runner : KubectlRunner) (kp cmd fmt : List Char),
      is_safe_kubectl_command cmd = .ok false →
      execute_kubectl_via_subprocess runner kp cmd fmt
        = .ok ⟨securityRejectionMsg cmd, false⟩) :=
  ⟨fun cfg api env runner fmt =>
      execute_mutating_flags cfg api env runner (toCL "kubectl delete pod x") fmt
        (toCL "delete") (by decide) (by decide) (by decide),
   fun cfg api env runner cmd fmt v hv hm =>
      execute_mutating_no_api cfg api env runner cmd fmt v hv hm,
   fun cfg api env runner cmd fmt v hv hm hplain =>
      (execute_mutating_flags cfg api env runner cmd fmt v hv hm hplain).2,
   is_safe_reject_of_metachar,
   subproc_rejects⟩

/-- Witness for C4 at concrete commands and configuration. -/
theorem C4_witness :
    ((execute_kubectl_command cfg0 api0 env0 runner0
        (toCL "kubectl delete pod x") (toCL "table")).apiCalled = false
      ∧ (execute_kubectl_command cfg0 api0 env0 runner0
        (toCL "kubectl delete pod x") (toCL "table")).subprocRan = false)
  ∧ (execute_kubectl_command cfg0 api0 env0 runner0
      (toCL "kubectl apply -f x.yaml") (toCL "yaml")).apiCalled = false
  ∧ (execute_kubectl_command cfg0 api0 env0 runner0
      (toCL "kubectl apply -f x.yaml") (toCL "yaml")).subprocRan = false
  ∧ is_safe_kubectl_command (toCL "kubectl get pods; ls") ≠ .ok true
  ∧ execute_kubectl_via_subprocess runner0 (toCL "kubectl")
      (toCL "kubectl delete pod x") (toCL "table")
      = .ok ⟨securityRejectionMsg (toCL "kubectl delete pod x"), false⟩ :=
  ⟨C4_security_gate.1 cfg0 api0 env0 runner0 (toCL "table"),
   C4_security_gate.2.1 cfg0 api0 env0 runner0 (toCL "kubectl apply -f x.yaml")
     (toCL "yaml") (toCL "apply") (by decide) (by decide),
   C4_security_gate.2.2.1 cfg0 api0 env0 runner0 (toCL "kubectl apply -f x.yaml")
     (toCL "yaml") (toCL "apply") (by decide) (by decide) (by decide),
   C4_security_gate.2.2.2.1 (toCL "kubectl get pods; ls") (by decide),
   C4_security_gate.2.2.2.2 runner0 (toCL "kubectl") (toCL "kubectl delete pod x")
     (toCL "table") (by rfl)⟩

/-!  Claim C5.  Scientific versus fixed-point rendering of metric values. -/

/-- Membership distributes over append. -/
theorem containsC_append (c : Char) (a b : List Char) :
    containsC c (a ++ b) = (containsC c a || containsC c b) := by
  simp [containsC]

/-- Right-stripping a character introduces no new character. -/
theorem containsC_pyRstripChar_false (c ch : Char) (s : List Char)
    (h : containsC c s = false) :
    containsC c (pyRstripChar ch s) = false := by
  simp only [containsC, pyRstripChar, List.any_eq_false] at h ⊢
  intro x hx
  apply h
  rw [List.mem_reverse] at hx
  have hx2 := (List.dropWhile_sublist (fun d => d == ch)).subset hx
  rw [List.mem_reverse] at hx2
  exact hx2

/-- No decimal digit is the letter e. -/
theorem digitChar_ne_e (d : Nat) (h : d < 10) : (digitChar d == 'e') = false := by
  interval_cases d <;> decide

/-- Decimal renderings contain only digits, hence never the letter e. -/
theorem natToCharsFuel_ne_e (f n : Nat) :
    ∀ c ∈ natToCharsFuel f n, (c == 'e') = false := by
  induction f generalizing n with
  | zero => intro c hc; simp [natToCharsFuel] at hc
  | succ f ih =>
    intro c hc
    rw [natToCharsFuel] at hc
    split at hc
    · simp at hc
    · rw [List.mem_append] at hc
      rcases hc with hc | hc
      · exact ih (n / 10) c hc
      · simp only [List.mem_singleton] at hc
        subst hc
        exact digitChar_ne_e (n % 10) (Nat.mod_lt n (by norm_num))

/-- A rendered natural number never contains the letter e. -/
theorem containsC_natToChars_e (n : Nat) : containsC 'e' (natToChars n) = false := by
  rw [natToChars]
  split
  · decide
  · simp only [containsC, List.any_eq_false]
    intro x hx
    simpa using natToCharsFuel_ne_e (n + 1) n x hx

/-- A zero-padded rendered natural number never contains the letter e. -/
theorem containsC_natToCharsPad_e (w n : Nat) :
    containsC 'e' (natToCharsPad w n) = false := by
  rw [natToCharsPad, containsC_append, containsC_natToChars_e]
  simp only [Bool.or_false, containsC, List.any_eq_false]
  intro x hx
  rw [List.eq_of_mem_replicate hx]
  decide

/-- Fixed-point rendering never contains the letter e. -/
theorem pyFormatF6_no_e (v : ℚ) : containsC 'e' (pyFormatF6 v) = false := by
  rw [pyFormatF6]
  simp only [containsC_append, containsC_natToChars_e, containsC_natToCharsPad_e,
    Bool.or_false, Bool.false_or]
  split <;> decide

/-- Scientific rendering always contains the letter e. -/
theorem pyFormatE6_has_e (v : ℚ) : containsC 'e' (pyFormatE6 v) = true := by
  rw [pyFormatE6]
  split
  · decide
  · simp only [containsC_append]
    have : containsC 'e' (toCL "e") = true := by decide
    rw [this]
    simp

/-- Scientific notation appears in the rendered value exactly at the magnitude
thresholds of the source condition. -/
theorem formatMetricValue_e_iff (v : ℚ) :
    containsC 'e' (formatMetricValue v) = true ↔
      (qabs v < qThousandth ∨ (100000 : ℚ) < qabs v) := by
  rw [formatMetricValue]
  split
  · next h => exact iff_of_true (pyFormatE6_has_e v) h
  · next h =>
    refine iff_of_false ?_ h
    have h1 := containsC_pyRstripChar_false 'e' '0' (pyFormatF6 v) (pyFormatF6_no_e v)
    have h2 := containsC_pyRstripChar_false 'e' '.' _ h1
    simp [h2]

/-- Counterexample to C5: the value 123456 exceeds the upper threshold 1e5 and
is rendered in scientific notation, not in fixed-point as the claim's example
asserts. -/
theorem C5_counterexample :
    containsC 'e' (formatMetricValue (123456 : ℚ)) = true
  ∧ formatMetricValue (123456 : ℚ) = toCL "1.234560e+05"
  ∧ formatMetricValue (123456 : ℚ)
      ≠ pyRstripChar '.' (pyRstripChar '0' (pyFormatF6 (123456 : ℚ))) := by
  refine ⟨by decide, by decide, by decide⟩

/-- Claim C5 (amended): scientific notation is used exactly when the magnitude
is below 1/1000 or above 100000; 0.0000001 renders as 1.000000e-07, 123456
as 1.234560e+05 (scientific, being above the threshold), 12345 in trimmed
fixed-point; on the spec fixture both rendered values appear in the text
output. -/
theorem C5_value_thresholds :
    (∀ v : ℚ, containsC 'e' (formatMetricValue v) = true ↔
        (qabs v < qThousandth ∨ (100000 : ℚ) < qabs v))
  ∧ qThousandth = (1 / 1000 : ℚ)
  ∧ formatMetricValue (Rat.divInt 1 10000000) = toCL "1.000000e-07"
  ∧ Rat.divInt 1 10000000 = (1 / 10000000 : ℚ)
  ∧ formatMetricValue (Rat.divInt 123456 1) = toCL "1.234560e+05"
  ∧ formatMetricValue (12345 : ℚ) = toCL "12345"
  ∧ containsL (toCL "1.000000e-07") (format_vector_as_text (toCL "q") c5fixture) = true
  ∧ containsL (toCL "1.234560e+05") (format_vector_as_text (toCL "q") c5fixture) = true := by
  refine ⟨formatMetricValue_e_iff, ?_, by decide, ?_, by decide, by decide, by decide,
    by decide⟩
  · rw [qThousandth, Rat.divInt_eq_div]; norm_num
  · rw [Rat.divInt_eq_div]; norm_num

/-!  Claim C6.  The metric-prefix flow: ephemeral ack plus a deferred
Prometheus query task whose posted report quotes the literal query. -/

/-- Splitting a metric-prefixed text on the first space yields the query. -/
theorem splitFirstChar_metric (q : List Char) :
    splitFirstChar ' ' (toCL "metric " ++ q) = (toCL "metric", some q) := by
  simp [toCL, splitFirstChar]

/-- Lowercasing preserves the metric prefix. -/
theorem toLowerL_metric_append (q : List Char) :
    toLowerL (toCL "metric " ++ q) = toCL "metric " ++ toLowerL q := by
  simp [toLowerL, toCL]

/-- Claim C6: every text of the form metric-space-query returns the ephemeral
table-processing ack synchronously and schedules exactly the Prometheus query
task on the stripped query (so neither the keyword-command nor the ChatGPT
path runs); the deferred success post contains the literal query; both are
instantiated on the text metric up. -/
theorem C6_metric_dispatch :
    (∀ q : List Char,
      process_webhook_request (toCL "metric " ++ q)
        = (⟨ackMetricTable, toCL "ephemeral"⟩,
           some (.prometheusQuery (pyStrip q) (toCL "table"))))
  ∧ (∀ user q r : List Char,
      containsL q (process_prometheus_query_post user q r) = true)
  ∧ process_webhook_request (toCL "metric up")
      = (⟨ackMetricTable, toCL "ephemeral"⟩,
         some (.prometheusQuery (toCL "up") (toCL "table")))
  ∧ containsL (toCL "up")
      (process_prometheus_query_post (toCL "alice") (toCL "up")
        (toCL "table-output")) = true := by
  refine ⟨fun q => ?_, fun user q r => ?_, by decide, by decide⟩
  · have hsw : startsWithL (toCL "metric ") (toLowerL (toCL "metric " ++ q)) = true := by
      rw [toLowerL_metric_append]
      exact startsWithL_self_append _ _
    simp only [process_webhook_request, hsw, if_true, splitFirstChar_metric]
  · rw [process_prometheus_query_post]
    have h := containsL_append_mid
      (toCL "@" ++ user ++ toCL " requested metrics: " ++ [dquoteC]) q
      ([dquoteC] ++ toCL "\n\n" ++ r)
    simpa [List.append_assoc] using h

/-!  Claim C7.  Empty-collection sentences of the formatters. -/

/-- Counterexample to C7: the pods table on an empty list answers with the
longer matching-the-criteria sentence, not the uniform no-pods-found one. -/
theorem C7_counterexample :
    format_pods_as_table 0 ⟨[]⟩ = toCL "No pods found matching the criteria."
  ∧ format_pods_as_table 0 ⟨[]⟩ ≠ toCL "No pods found"
  ∧ format_pods_as_table 0 ⟨[]⟩ ≠ toCL "No pods found." := by
  refine ⟨by decide, by decide, by decide⟩

/-- Claim C7 (amended): on an empty collection every formatter returns a
non-empty literal sentence rather than an empty table; nine of the ten return
the sentence No-kind-found with a period, while the pods table appends
matching the criteria. -/
theorem C7_empty_collections (now : Int) (dump : YamlDump) (iso : IsoFmt) :
    format_pods_as_table now ⟨[]⟩ = toCL "No pods found matching the criteria."
  ∧ format_pods_as_yaml dump iso ⟨[]⟩ = toCL "No pods found."
  ∧ format_services_as_table ⟨[]⟩ = toCL "No services found."
  ∧ format_services_as_yaml dump iso ⟨[]⟩ = toCL "No services found."
  ∧ format_deployments_as_table now ⟨[]⟩ = toCL "No deployments found."
  ∧ format_deployments_as_yaml dump iso ⟨[]⟩ = toCL "No deployments found."
  ∧ format_namespaces_as_table now ⟨[]⟩ = toCL "No namespaces found."
  ∧ format_namespaces_as_yaml dump iso ⟨[]⟩ = toCL "No namespaces found."
  ∧ format_nodes_as_table now ⟨[]⟩ = toCL "No nodes found."
  ∧ format_nodes_as_yaml dump iso ⟨[]⟩ = toCL "No nodes found." := by
  exact ⟨rfl, rfl, rfl, rfl, rfl, rfl, rfl, rfl, rfl, rfl⟩

/-!  Claim C8.  Age rendering thresholds. -/

/-- Counterexample to C8: an elapsed time of exactly one hour renders as 60m,
and of exactly one minute as 60s, because the source compares with strict
greater-than. -/
theorem C8_counterexample :
    calculate_age 3600 0 = toCL "60m" ∧ calculate_age 3600 0 ≠ toCL "1h"
  ∧ calculate_age 60 0 = toCL "60s" ∧ calculate_age 60 0 ≠ toCL "1m" := by
  refine ⟨by decide, by decide, by decide, by decide⟩

/-- Claim C8 (amended): for a non-negative elapsed time, the age is days when
at least one full day has passed, otherwise hours when the elapsed seconds
strictly exceed 3600, otherwise minutes when they strictly exceed 60,
otherwise seconds; exact one-hour and one-minute boundaries therefore fall to
the smaller unit. -/
theorem C8_age_threshold_chain (now created : Int) (h0 : 0 ≤ now - created) :
    (86400 ≤ now - created →
      calculate_age now created
        = intToChars (Int.fdiv (now - created) 86400) ++ toCL "d")
  ∧ (now - created < 86400 → 3600 < now - created →
      calculate_age now created
        = intToChars (Int.fdiv (now - created) 3600) ++ toCL "h")
  ∧ (60 < now - created → now - created ≤ 3600 →
      calculate_age now created
        = intToChars (Int.fdiv (now - created) 60) ++ toCL "m")
  ∧ (0 ≤ now - created → now - created ≤ 60 →
      calculate_age now created = intToChars (now - created) ++ toCL "s") := by
  have hdm : 86400 * Int.fdiv (now - created) 86400 + Int.fmod (now - created) 86400
      = now - created := Int.fdiv_add_fmod _ _
  have hlb : 0 ≤ Int.fmod (now - created) 86400 :=
    Int.fmod_nonneg h0 (by norm_num)
  have hub : Int.fmod (now - created) 86400 < 86400 :=
    Int.fmod_lt_of_pos _ (by norm_num)
  refine ⟨fun h1 => ?_, fun h1 h2 => ?_, fun h1 h2 => ?_, fun h1 h2 => ?_⟩
  · simp only [calculate_age]
    split_ifs <;> first | rfl | (exfalso; omega)
  · have hm : Int.fmod (now - created) 86400 = now - created := by omega
    simp only [calculate_age, hm]
    split_ifs <;> first | rfl | (exfalso; omega)
  · have hm : Int.fmod (now - created) 86400 = now - created := by omega
    simp only [calculate_age, hm]
    split_ifs <;> first | rfl | (exfalso; omega)
  · have hm : Int.fmod (now - created) 86400 = now - created := by omega
    simp only [calculate_age, hm]
    split_ifs <;> first | rfl | (exfalso; omega)

/-- Witness for C8 on the ninety-minute elapsed time 5400. -/
theorem C8_witness :
    0 ≤ (5400 : Int) - 0
  ∧ calculate_age 5400 0 = intToChars (Int.fdiv ((5400 : Int) - 0) 3600) ++ toCL "h"
  ∧ calculate_age 5400 0 = toCL "1h" :=
  ⟨by decide,
   (C8_age_threshold_chain 5400 0 (by decide)).2.1 (by decide) (by decide),
   by decide⟩

/-!  Claim C9.  Keyword-command matching is prefix-based. -/

/-- Prefixes beginning with different characters exclude each other. -/
theorem startsWith_excl (a b : Char) (p q s : List Char) (hab : a ≠ b)
    (h : startsWithL (a :: p) s = true) : startsWithL (b :: q) s = false := by
  cases s with
  | nil => simp [startsWithL] at h
  | cons c cs =>
    simp only [startsWithL, Bool.and_eq_true, beq_iff_eq] at h
    simp only [startsWithL, Bool.and_eq_false_iff]
    left
    rw [beq_eq_false_iff_ne]
    rw [← h.1]
    exact fun hbc => hab hbc.symm

/-- With no directive prefix matching, the dispatcher falls to the
keyword-command check and then the ChatGPT fallback. -/
theorem no_directive_tail (text : List Char)
    (hdir : ∀ pre ∈ directive_prefixes, startsWithL pre (toLowerL text) = false) :
    process_webhook_request text =
      (match process_command text with
       | some response => (⟨response, toCL "in_channel"⟩, none)
       | none => (⟨ackChatgpt, toCL "ephemeral"⟩, some (.chatgptRoute text))) := by
  have h1 := hdir (toCL "metric ") (by decide)
  have h2 := hdir (toCL "kubectl ") (by decide)
  have h3 := hdir (toCL "metric-text ") (by decide)
  have h4 := hdir (toCL "kubectl-yaml ") (by decide)
  have h5 := hdir (toCL "query ") (by decide)
  have h6 := hdir (toCL "query-text ") (by decide)
  simp only [process_webhook_request, h1, h2, h3, h4, h5, h6,
    Bool.false_eq_true, if_false]

/-- Claim C9: on any text matching no directive prefix, a stripped form that
merely starts with help, ping or status yields the corresponding canned
response synchronously, typed in_channel, with no background task (so neither
whole-word matching nor a ChatGPT call happens). -/
theorem C9_keyword_prefix_matching (text : List Char)
    (hdir : ∀ pre ∈ directive_prefixes, startsWithL pre (toLowerL text) = false) :
    (startsWithL (toCL "help") (pyStrip text) = true →
      process_webhook_request text = (⟨help_response, toCL "in_channel"⟩, none))
  ∧ (startsWithL (toCL "ping") (pyStrip text) = true →
      process_webhook_request text = (⟨ping_response, toCL "in_channel"⟩, none))
  ∧ (startsWithL (toCL "status") (pyStrip text) = true →
      process_webhook_request text = (⟨status_response, toCL "in_channel"⟩, none)) := by
  rw [no_directive_tail text hdir]
  refine ⟨fun hk => ?_, fun hk => ?_, fun hk => ?_⟩
  · simp only [process_command, hk, if_true]
  · have hh : startsWithL (toCL "help") (pyStrip text) = false :=
      startsWith_excl 'p' 'h' _ _ _ (by decide) hk
    simp only [process_command, hk, hh, Bool.false_eq_true, if_false, if_true]
  · have hh : startsWithL (toCL "help") (pyStrip text) = false :=
      startsWith_excl 's' 'h' _ _ _ (by decide) hk
    have hp : startsWithL (toCL "ping") (pyStrip text) = false :=
      startsWith_excl 's' 'p' _ _ _ (by decide) hk
    simp only [process_command, hk, hh, hp, Bool.false_eq_true, if_false, if_true]

/-- Witness for C9 on the texts status of the cluster and helpless. -/
theorem C9_witness :
    (∀ pre ∈ directive_prefixes,
      startsWithL pre (toLowerL (toCL "status of the cluster")) = false)
  ∧ process_webhook_request (toCL "status of the cluster")
      = (⟨status_response, toCL "in_channel"⟩, none)
  ∧ process_webhook_request (toCL "helpless")
      = (⟨help_response, toCL "in_channel"⟩, none) :=
  ⟨by decide,
   (C9_keyword_prefix_matching (toCL "status of the cluster") (by decide)).2.2
     (by decide),
   (C9_keyword_prefix_matching (toCL "helpless") (by decide)).1 (by decide)⟩

/-!  Claim C10.  The advisory rate limiter of the ChatGPT adapter. -/

/-- Claim C10: the request counter starts at zero, is incremented once per
configured call, and after any number of sequential calls stays within
[0, 45] (so its transient incremented value never exceeds 46); when the
incremented value exceeds 45 the call returns the rate-limited outcome (no
HTTP attempt) and stores the value lowered by five, which stays above 40 and
in particular is never reset to zero. -/
theorem C10_rate_limiter :
    (∀ n : Nat, 0 ≤ chatCountAfter n ∧ chatCountAfter n ≤ 45)
  ∧ (∀ c : Int, c + 1 ≤ 45 → chatgpt_rate_gate true c = (c + 1, .httpAttempt))
  ∧ (∀ c : Int, 45 < c + 1 →
      chatgpt_rate_gate true c = (max 0 (c + 1 - 5), .rateLimited)
      ∧ (chatgpt_rate_gate true c).2 ≠ .httpAttempt)
  ∧ (∀ c : Int, 0 ≤ c → 45 < c + 1 → 40 < (chatgpt_rate_gate true c).1) := by
  have hgate : ∀ c : Int, chatgpt_rate_gate true c =
      if c + 1 > 45 then (max 0 (c + 1 - 5), .rateLimited)
      else (c + 1, .httpAttempt) := by
    intro c
    simp only [chatgpt_rate_gate, Bool.not_true, Bool.false_eq_true, if_false]
  refine ⟨?_, fun c h => ?_, fun c h => ?_, fun c h0 h => ?_⟩
  · intro n
    induction n with
    | zero => constructor <;> decide
    | succ n ih =>
      show 0 ≤ (chatgpt_rate_gate true (chatCountAfter n)).1
        ∧ (chatgpt_rate_gate true (chatCountAfter n)).1 ≤ 45
      rw [hgate]
      split_ifs <;> constructor <;> omega
  · rw [hgate, if_neg (by omega)]
  · rw [hgate, if_pos (by omega)]
    exact ⟨rfl, by simp⟩
  · rw [hgate, if_pos (by omega)]
    simp only
    omega

/-- Witness for C10 at fifty sequential calls and at counters 10 and 45. -/
theorem C10_witness :
    chatCountAfter 50 ≤ 45
  ∧ chatgpt_rate_gate true 10 = (11, .httpAttempt)
  ∧ chatgpt_rate_gate true 45 = (max 0 (45 + 1 - 5), .rateLimited)
  ∧ max 0 ((45 : Int) + 1 - 5) = 41
  ∧ 40 < (chatgpt_rate_gate true 45).1 :=
  ⟨(C10_rate_limiter.1 50).2,
   C10_rate_limiter.2.1 10 (by decide),
   (C10_rate_limiter.2.2.1 45 (by decide)).1,
   by decide,
   C10_rate_limiter.2.2.2 45 (by decide) (by decide)⟩
